import Mathlib

/-
Shallow embedding of the desert-solutions API route handlers.

External collaborators (payment provider, database proxy, email sender,
PDF renderer, object storage, crypto primitives, JSON/Zod parsing) are
modelled as explicit environment records of total or `Except`-valued
functions; each handler is a pure Lean function from its environment and
request data to a response value paired with the list of downstream
collaborator calls it performed, in order.  JavaScript numbers are
modelled as exact rationals, JavaScript string/nullable truthiness is
modelled explicitly (null and the empty string are falsy).
-/

namespace DesertSolutions

/-- JavaScript string truthiness: a string is truthy iff it is nonempty. -/
def truthyStr (s : String) : Bool := !(s == "")

/-- Truthiness of a nullable string (null and the empty string are falsy). -/
def truthyOptStr (o : Option String) : Bool :=
  match o with
  | none => false
  | some s => truthyStr s

/-- JavaScript `a || b` for a nullable string `a` (null and "" fall through to `b`). -/
def jsOrStr (o : Option String) (d : String) : String :=
  match o with
  | none => d
  | some s => if s = "" then d else s

/-- JavaScript `a || b` for a nullable number `a` (null and 0 fall through to `b`). -/
def jsOrQ (o : Option ℚ) (d : ℚ) : ℚ :=
  match o with
  | none => d
  | some v => if v = 0 then d else v

/-- Split a character list around the first occurrence of a pattern:
`some (before, after)` when the pattern occurs, `none` otherwise. -/
def firstSplit (pat : List Char) : List Char → Option (List Char × List Char)
  | [] => if pat = [] then some ([], []) else none
  | c :: rest =>
    if pat.isPrefixOf (c :: rest) then
      some ([], (c :: rest).drop pat.length)
    else
      match firstSplit pat rest with
      | none => none
      | some (before, after) => some (c :: before, after)

/-- JavaScript `s.replace(pat, repl)` with a string pattern: replace the
first occurrence only, scanning left to right. -/
def replaceFirst (s pat repl : String) : String :=
  match firstSplit pat.data s.data with
  | none => s
  | some (before, after) => String.mk (before ++ repl.data ++ after)

/-- Document status values of the PDF utility library. -/
inductive DocStatus where
  | WIP
  | RC
  | FINAL
deriving DecidableEq

/-- Datasheet languages. -/
inductive Lang where
  | en
  | nl
deriving DecidableEq

/-- A rendered PDF buffer (byte list). -/
abbrev PdfBuf := List Nat

/-- An object-storage file as returned by `getFile` (nullable body and
content type). -/
structure FileObj where
  body : Option (List Nat)
  contentType : Option String
deriving DecidableEq

/-- `fetchImageAsDataUrl`: fetch a file from object storage and base64-embed
it as a data URL; any storage error or missing body yields null (the helper
catches its own exceptions). -/
def fetchImageAsDataUrl (getFile : String → Except String (Option FileObj))
    (base64 : List Nat → String) (s3Key : String) : Option String :=
  match getFile s3Key with
  | .error _ => none
  | .ok none => none
  | .ok (some f) =>
    match f.body with
    | none => none
    | some bytes =>
      some ("data:" ++ jsOrStr f.contentType "image/jpeg" ++ ";base64," ++ base64 bytes)

/-- Lowercase hexadecimal digit character for a value below 16
(as produced by Node `digest('hex')`). -/
def hexChar (n : Nat) : Char :=
  if n < 10 then Char.ofNat (48 + n) else Char.ofNat (87 + n)

/-- Numeric value of a hexadecimal digit character (upper or lower case),
`none` for a non-hex character. -/
def hexCharVal (c : Char) : Option Nat :=
  if 48 ≤ c.toNat ∧ c.toNat ≤ 57 then some (c.toNat - 48)
  else if 97 ≤ c.toNat ∧ c.toNat ≤ 102 then some (c.toNat - 87)
  else if 65 ≤ c.toNat ∧ c.toNat ≤ 70 then some (c.toNat - 55)
  else none

/-- Node `Buffer.from(s, 'hex')`: decode hex digit pairs greedily and stop at the
first invalid or incomplete pair, ignoring the remainder of the string. -/
def hexDecode : List Char → List Nat
  | c1 :: c2 :: rest =>
    match hexCharVal c1, hexCharVal c2 with
    | some hi, some lo => (16 * hi + lo) :: hexDecode rest
    | _, _ => []
  | _ => []

/-- Lowercase hex encoding of a byte list (Node `digest('hex')`). -/
def hexEncode (bs : List (Fin 256)) : List Char :=
  bs.flatMap (fun b => [hexChar (b.val / 16), hexChar (b.val % 16)])

namespace Webhook

/-- Payload of a parsed webhook event (`event.data`); only the `invoiceId`
field is consumed by the event handlers. -/
structure EventData where
  invoiceId : String
deriving DecidableEq

/-- A parsed webhook event (`JSON.parse(body)`). -/
structure Event where
  type : String
  data : EventData
deriving DecidableEq

/-- Payment-provider invoice object, as consumed by the webhook handlers. -/
structure Invoice where
  id : String
  customerId : String
  number : String
  total : ℚ
  dueDate : String
  paymentUrl : String
deriving DecidableEq

/-- Payment-provider customer object. -/
structure Customer where
  id : String
  name : String
  email : String
deriving DecidableEq

/-- Downstream collaborator calls performed by the webhook route
(payment-provider lookups and outbound email, with recipient and subject). -/
inductive Call where
  | invoicesGet (id : String)
  | customersGet (id : String)
  | sendEmail (recipient : String) (subject : String)
deriving DecidableEq

/-- Environment of the webhook route: HMAC-SHA256 digest as a byte list,
JSON parsing of the raw body, and the external collaborators. -/
structure Env where
  hmacSha256 : String → String → List (Fin 256)
  parseJson : String → Except String Event
  invoicesGet : String → Except String Invoice
  customersGet : String → Except String Customer
  sendEmail : String → String → Except String Unit

/-- Responses of the webhook POST handler, in source order:
401 missing-headers, 401 invalid-signature, 200 received, 500 with the
thrown error message. -/
inductive Res where
  | missingHeaders
  | invalidSignature
  | received
  | serverError (message : String)
deriving DecidableEq

/-- HTTP status code of each webhook response. -/
def Res.status : Res → Nat
  | .missingHeaders => 401
  | .invalidSignature => 401
  | .received => 200
  | .serverError _ => 500

/-- `handleInvoicePaid`: fetch the invoice and customer from the payment
provider and send the payment-confirmation email; the first failure is
rethrown.  Email bodies are elided; the recipient and subject are kept. -/
def handleInvoicePaid (env : Env) (d : EventData) : Except String Unit × List Call :=
  match env.invoicesGet d.invoiceId with
  | .error e => (.error e, [.invoicesGet d.invoiceId])
  | .ok inv =>
    match env.customersGet inv.customerId with
    | .error e => (.error e, [.invoicesGet d.invoiceId, .customersGet inv.customerId])
    | .ok cust =>
      let subject := "Payment Received - Invoice " ++ inv.number
      match env.sendEmail cust.email subject with
      | .error e =>
        (.error e,
          [.invoicesGet d.invoiceId, .customersGet inv.customerId, .sendEmail cust.email subject])
      | .ok _ =>
        (.ok (),
          [.invoicesGet d.invoiceId, .customersGet inv.customerId, .sendEmail cust.email subject])

/-- `handlePaymentFailed`: fetch invoice and customer, send the
payment-failure email; failures are rethrown. -/
def handlePaymentFailed (env : Env) (d : EventData) : Except String Unit × List Call :=
  match env.invoicesGet d.invoiceId with
  | .error e => (.error e, [.invoicesGet d.invoiceId])
  | .ok inv =>
    match env.customersGet inv.customerId with
    | .error e => (.error e, [.invoicesGet d.invoiceId, .customersGet inv.customerId])
    | .ok cust =>
      let subject := "Payment Failed - Invoice " ++ inv.number
      match env.sendEmail cust.email subject with
      | .error e =>
        (.error e,
          [.invoicesGet d.invoiceId, .customersGet inv.customerId, .sendEmail cust.email subject])
      | .ok _ =>
        (.ok (),
          [.invoicesGet d.invoiceId, .customersGet inv.customerId, .sendEmail cust.email subject])

/-- `handleInvoiceOverdue`: fetch invoice and customer, send the overdue
reminder email; failures are rethrown. -/
def handleInvoiceOverdue (env : Env) (d : EventData) : Except String Unit × List Call :=
  match env.invoicesGet d.invoiceId with
  | .error e => (.error e, [.invoicesGet d.invoiceId])
  | .ok inv =>
    match env.customersGet inv.customerId with
    | .error e => (.error e, [.invoicesGet d.invoiceId, .customersGet inv.customerId])
    | .ok cust =>
      let subject := "Payment Reminder - Invoice " ++ inv.number ++ " is Overdue"
      match env.sendEmail cust.email subject with
      | .error e =>
        (.error e,
          [.invoicesGet d.invoiceId, .customersGet inv.customerId, .sendEmail cust.email subject])
      | .ok _ =>
        (.ok (),
          [.invoicesGet d.invoiceId, .customersGet inv.customerId, .sendEmail cust.email subject])

/-- Translate an event-handler outcome into the route response: a rethrown
error reaches the catch block (500), success reaches the final
200 received acknowledgement. -/
def resOf : Except String Unit × List Call → Res × List Call
  | (.error e, calls) => (.serverError e, calls)
  | (.ok _, calls) => (.received, calls)

/-- The switch over `event.type`: the three known event types invoke their
handlers, every other type only logs and falls through to the 200
acknowledgement. -/
def processEvent (env : Env) (event : Event) : Res × List Call :=
  if event.type = "invoice.paid" then
    resOf (handleInvoicePaid env event.data)
  else if event.type = "invoice.payment_failed" then
    resOf (handlePaymentFailed env event.data)
  else if event.type = "invoice.overdue" then
    resOf (handleInvoiceOverdue env event.data)
  else (.received, [])

/-- The webhook POST handler: header truthiness check, HMAC-SHA256 signature
verification over `timestamp.body` (hex decoding both sides as
`Buffer.from(_, 'hex')` does), JSON parse of the body, then the event
switch; exceptions map to the 500 response with the thrown message. -/
def POST (env : Env) (secret : String) (signature timestamp : Option String)
    (body : String) : Res × List Call :=
  if !truthyOptStr signature || !truthyOptStr timestamp then
    (.missingHeaders, [])
  else
    let s := signature.getD ""
    let t := timestamp.getD ""
    let expectedSignature := String.mk (hexEncode (env.hmacSha256 secret (t ++ "." ++ body)))
    let signatureBuffer := hexDecode s.data
    let expectedBuffer := hexDecode expectedSignature.data
    if signatureBuffer.length ≠ expectedBuffer.length ∨ signatureBuffer ≠ expectedBuffer then
      (.invalidSignature, [])
    else
      match env.parseJson body with
      | .error e => (.serverError e, [])
      | .ok event => processEvent env event

end Webhook

namespace InvoiceStatus

/-- Payment-provider invoice object as consumed by the invoice-status route. -/
structure Invoice where
  id : String
  number : String
  status : String
  total : ℚ
  paidAmount : Option ℚ
  dueDate : String
  paidAt : Option String
  paymentUrl : String
  customerId : String
deriving DecidableEq

/-- Environment of the invoice-status route: the payment-provider lookup. -/
structure Env where
  invoicesGet : String → Except String Invoice

/-- Downstream collaborator calls of the invoice-status route. -/
inductive Call where
  | invoicesGet (id : String)
deriving DecidableEq

/-- The JSON payload of the successful invoice-status response. -/
structure Payload where
  id : String
  invoiceNumber : String
  status : String
  total : ℚ
  amountPaid : ℚ
  amountDue : ℚ
  dueDate : String
  paidDate : Option String
  paymentUrl : String
  customerId : String
deriving DecidableEq

/-- Responses of the invoice-status GET handler: 400 missing parameter,
500 with the thrown message, 200 success payload. -/
inductive Res where
  | missingParam
  | serverError (message : String)
  | success (invoice : Payload)
deriving DecidableEq

/-- HTTP status code of each invoice-status response. -/
def Res.status : Res → Nat
  | .missingParam => 400
  | .serverError _ => 500
  | .success _ => 200

/-- The invoice-status GET handler: require a truthy `invoiceId` query
parameter, fetch the invoice from the payment provider, and report
`amountPaid = paidAmount || 0` and `amountDue = total - (paidAmount || 0)`. -/
def GET (env : Env) (invoiceId : Option String) : Res × List Call :=
  if !truthyOptStr invoiceId then
    (.missingParam, [])
  else
    let iid := invoiceId.getD ""
    match env.invoicesGet iid with
    | .error e => (.serverError e, [.invoicesGet iid])
    | .ok inv =>
      (.success
        { id := inv.id
          invoiceNumber := inv.number
          status := inv.status
          total := inv.total
          amountPaid := jsOrQ inv.paidAmount 0
          amountDue := inv.total - jsOrQ inv.paidAmount 0
          dueDate := inv.dueDate
          paidDate := inv.paidAt
          paymentUrl := inv.paymentUrl
          customerId := inv.customerId },
        [.invoicesGet iid])

end InvoiceStatus

namespace Catalog

/-- A product-catalog entry, with the fields the route handlers consume.
Specifications are a finite string-keyed map of specification strings. -/
structure Product where
  id : String
  name : String
  shortDescription : String
  longDescription : String
  basePrice : ℚ
  specifications : List (String × String)
  images : List String
deriving DecidableEq

/-- Photo types of product photos. -/
inductive PhotoType where
  | product_overview
  | detail
  | installation
deriving DecidableEq

/-- One product photo (object-storage key, type, actual-model flag). -/
structure ProductPhoto where
  s3Key : String
  type : PhotoType
  isActualModel : Bool
deriving DecidableEq

/-- The photo set of a product. -/
structure PhotoSet where
  productId : String
  productName : String
  sku : String
  refrigerant : String
  photos : List ProductPhoto
deriving DecidableEq

end Catalog

namespace ProductsGet

/-- Responses of the product-details GET handler: 400 missing id parameter,
404 product not found, 500 with the thrown message, 200 success. -/
inductive Res where
  | missingParam
  | notFound
  | serverError (message : String)
  | success (product : Catalog.Product)
deriving DecidableEq

/-- HTTP status code of each product-details response. -/
def Res.status : Res → Nat
  | .missingParam => 400
  | .notFound => 404
  | .serverError _ => 500
  | .success _ => 200

/-- Environment: the in-process product-catalog lookup. -/
structure Env where
  getProductWithVariant : String → Option String → Option Catalog.Product

/-- The product-details GET handler: require a truthy `id` query parameter,
look the product (with optional variant) up in the catalog, 404 on a miss. -/
def GET (env : Env) (productId : Option String) (variantId : Option String) : Res :=
  if !truthyOptStr productId then
    .missingParam
  else
    match env.getProductWithVariant (productId.getD "") variantId with
    | none => .notFound
    | some p => .success p

end ProductsGet

namespace QuotationGet

/-- Customer object stored with a quotation (fields the routes consume). -/
structure StoredCustomer where
  name : String
  email : String
  company : Option String
  salutation : Option String
deriving DecidableEq

/-- A quotation as returned by the database proxy; depending on its origin it
carries the customer under `customer` or under `customerData`. -/
structure StoredQuotation where
  quotationNumber : String
  customer : Option StoredCustomer
  customerData : Option StoredCustomer
deriving DecidableEq

/-- Result envelope of the database proxy's getQuotation call. -/
structure GetQuotationResult where
  success : Bool
  quotation : Option StoredQuotation
deriving DecidableEq

/-- Environment: the database-proxy lookup. -/
structure Env where
  getQuotation : String → Except String GetQuotationResult

/-- Downstream collaborator calls of the quotation-get route. -/
inductive Call where
  | getQuotation (id : String)
deriving DecidableEq

/-- Responses of the quotation GET handler: 400 missing id, 404 not found,
500 with the thrown message, 200 success. -/
inductive Res where
  | missingParam
  | notFound
  | serverError (message : String)
  | success (quotation : StoredQuotation)
deriving DecidableEq

/-- HTTP status code of each quotation-get response. -/
def Res.status : Res → Nat
  | .missingParam => 400
  | .notFound => 404
  | .serverError _ => 500
  | .success _ => 200

/-- The quotation GET handler: require a truthy `id` parameter, fetch from the
database proxy, 404 when the result is unsuccessful or carries no quotation. -/
def GET (env : Env) (quotationId : Option String) : Res × List Call :=
  if !truthyOptStr quotationId then
    (.missingParam, [])
  else
    let qid := quotationId.getD ""
    match env.getQuotation qid with
    | .error e => (.serverError e, [.getQuotation qid])
    | .ok result =>
      if !result.success || result.quotation.isNone then
        (.notFound, [.getQuotation qid])
      else
        match result.quotation with
        | some q => (.success q, [.getQuotation qid])
        | none => (.notFound, [.getQuotation qid])

end QuotationGet

namespace Photos

/-- Photo-type query filter of the photos route (`type` query parameter). -/
inductive QueryType where
  | product_overview
  | detail
  | installation
  | all
deriving DecidableEq

/-- Whether a photo's type matches a non-`all` query type. -/
def typeMatches (qt : QueryType) (pt : Catalog.PhotoType) : Bool :=
  match qt, pt with
  | .product_overview, .product_overview => true
  | .detail, .detail => true
  | .installation, .installation => true
  | _, _ => false

/-- The validated query parameters of the photos route (output of the
query schema: type defaults to `all`, actualModelOnly to the string
comparison with "true", expiresIn to 3600). -/
structure Query where
  type : QueryType
  actualModelOnly : Bool
  expiresIn : Int
deriving DecidableEq

/-- Environment of the photos route: the in-process photo-set lookup and the
object-storage presigned-URL generator. -/
structure Env where
  getPhotosByProductId : String → Option Catalog.PhotoSet
  getPresignedUrl : String → Int → String

/-- Downstream collaborator calls of the photos route (object-storage
presigned-URL generation). -/
inductive Call where
  | getPresignedUrl (s3Key : String) (expiresIn : Int)
deriving DecidableEq

/-- A returned photo: the photo's fields plus its signed URL and expiry. -/
structure PhotoWithUrl where
  photo : Catalog.ProductPhoto
  signedUrl : String
  expiresIn : Int
deriving DecidableEq

/-- The JSON payload of the successful photos response. -/
structure Payload where
  productId : String
  productName : String
  sku : String
  refrigerant : String
  photoCount : Nat
  photos : List PhotoWithUrl
deriving DecidableEq

/-- The combined query predicate of the photos route, as the specification
states it: the photo's type matches the requested type unless the type is
`all`, and the photo is an actual-model photo whenever actualModelOnly is
requested. -/
def photoMatchesQuery (q : Query) (p : Catalog.ProductPhoto) : Bool :=
  (decide (q.type = QueryType.all) || typeMatches q.type p.type) &&
    (!q.actualModelOnly || p.isActualModel)

/-- The two sequential conditional filters of the photos route: drop photos
of the wrong type unless the query type is `all`, then drop non-actual-model
photos when actualModelOnly is requested. -/
def applyFilters (q : Query) (photos0 : List Catalog.ProductPhoto) :
    List Catalog.ProductPhoto :=
  let photos1 :=
    if q.type = QueryType.all then photos0
    else photos0.filter (fun p => typeMatches q.type p.type)
  if q.actualModelOnly then photos1.filter (fun p => p.isActualModel) else photos1

/-- Responses of the photos GET handler: 400 invalid query parameters with
the validation issues, 404 product not found, 500, 200 success. -/
inductive Res where
  | badRequest (details : List String)
  | notFound (productId : String)
  | serverError (message : String)
  | success (payload : Payload)
deriving DecidableEq

/-- HTTP status code of each photos response. -/
def Res.status : Res → Nat
  | .badRequest _ => 400
  | .notFound _ => 404
  | .serverError _ => 500
  | .success _ => 200

/-- The photos GET handler: validate the query (Zod errors become 400 with
details), look up the photo set (404 on a miss), filter by type and by
actual-model flag, and attach a presigned URL to each remaining photo. -/
def GET {Raw : Type} (env : Env) (parse : Raw → Except (List String) Query)
    (productId : String) (rawQuery : Raw) : Res × List Call :=
  match parse rawQuery with
  | .error e => (.badRequest e, [])
  | .ok q =>
    match env.getPhotosByProductId productId with
    | none => (.notFound productId, [])
    | some photoSet =>
      let photos2 := applyFilters q photoSet.photos
      let photosWithUrls := photos2.map (fun p =>
        { photo := p
          signedUrl := env.getPresignedUrl p.s3Key q.expiresIn
          expiresIn := q.expiresIn : PhotoWithUrl })
      (.success
        { productId := photoSet.productId
          productName := photoSet.productName
          sku := photoSet.sku
          refrigerant := photoSet.refrigerant
          photoCount := photosWithUrls.length
          photos := photosWithUrls },
        photos2.map (fun p => .getPresignedUrl p.s3Key q.expiresIn))

end Photos

namespace QuotationCreate

/-- Supported currencies of the quotation-create schema. -/
inductive Currency where
  | USD
  | EUR
  | CNY
deriving DecidableEq

/-- Postal address of a customer. -/
structure Address where
  street : String
  city : String
  state : String
  zip : String
  country : String
deriving DecidableEq

/-- Validated customer object of the quotation-create request. -/
structure CustomerIn where
  name : String
  company : Option String
  email : String
  phone : Option String
  address : Option Address
deriving DecidableEq

/-- One validated requested item of the quotation-create request. -/
structure ItemReq where
  productId : String
  variantId : Option String
  quantity : ℚ
  customPrice : Option ℚ
deriving DecidableEq

/-- Validated discount object. -/
structure DiscountIn where
  amount : ℚ
  description : String
deriving DecidableEq

/-- Validated optional terms object of the quotation-create request. -/
structure TermsIn where
  paymentTerms : Option String
  deliveryTerms : Option String
  warranty : Option String
  leadTime : Option String
  shippingCost : Option ℚ
  discount : Option DiscountIn
deriving DecidableEq

/-- The validated quotation-create request body. -/
structure CreateBody where
  customer : CustomerIn
  items : List ItemReq
  terms : Option TermsIn
  notes : Option String
  internalNotes : Option String
  validityDays : Option Nat
  currency : Currency
deriving DecidableEq

/-- One quotation line item built from the catalog (and custom pricing). -/
structure QuotationItem where
  id : String
  name : String
  description : String
  quantity : ℚ
  unitPrice : ℚ
  totalPrice : ℚ
  specifications : List (String × String)
  images : List String
deriving DecidableEq

/-- Quotation terms as stored (validity as an abstract day count from `now`). -/
structure TermsOut where
  validUntil : Nat
  paymentTerms : String
  deliveryTerms : String
  warranty : Option String
  leadTime : Option String
  shippingCost : ℚ
  taxRate : ℚ
  discount : Option DiscountIn
deriving DecidableEq

/-- Totals produced by the library's calculateQuotationTotals helper. -/
structure Totals where
  subtotal : ℚ
  tax : ℚ
  shipping : ℚ
  discount : ℚ
  total : ℚ
deriving DecidableEq

/-- The record handed to the database proxy's createQuotation call. -/
structure StoredInput where
  quotationNumber : String
  customerData : CustomerIn
  items : List QuotationItem
  currency : Currency
  subtotal : ℚ
  tax : ℚ
  shipping : ℚ
  discount : ℚ
  total : ℚ
  terms : TermsOut
  notes : Option String
  internalNotes : Option String
  status : String
  date : Nat
deriving DecidableEq

/-- What the database proxy returns from createQuotation. -/
structure StoredResult where
  quotation : StoredInput
deriving DecidableEq

/-- Quotation configuration values read from `quotationConfig`. -/
structure Config where
  defaultValidityDays : Nat
  defaultTaxRate : ℚ
deriving DecidableEq

/-- Environment of the quotation-create route: catalog lookups, the library's
number generator and totals calculator, the database proxy, and the clock. -/
structure Env where
  getProductById : String → Option Catalog.Product
  getProductPrice : String → Currency → Option ℚ
  genQuotationNumber : Option String → String
  calcTotals : List QuotationItem → TermsOut → Totals
  dbCreateQuotation : StoredInput → Except String StoredResult
  now : Nat
  config : Config

/-- Downstream collaborator calls of the quotation-create route (only the
database proxy; catalog lookups are in-process). -/
inductive Call where
  | dbCreateQuotation (input : StoredInput)
deriving DecidableEq

/-- Responses of the quotation-create POST handler: 400 with validation
details, 500 with the thrown message, 201 created. -/
inductive Res where
  | badRequest (details : List String)
  | serverError (message : String)
  | created (stored : StoredResult)
deriving DecidableEq

/-- HTTP status code of each quotation-create response. -/
def Res.status : Res → Nat
  | .badRequest _ => 400
  | .serverError _ => 500
  | .created _ => 201

/-- The `validated.items.map((item, index) => ...)` loop: look each product up
(a miss throws `Product not found: id`), price the item with
`customPrice ?? (getProductPrice(variantId || productId, currency) || basePrice)`
(JavaScript `||`, so a missing, empty-string variant id and a zero catalog
price fall through), and build the line item. -/
def buildQuotationItems (env : Env) (currency : Currency) :
    List ItemReq → Nat → Except String (List QuotationItem)
  | [], _ => .ok []
  | item :: rest, index =>
    match env.getProductById item.productId with
    | none => .error ("Product not found: " ++ item.productId)
    | some product =>
      let pricingId := jsOrStr item.variantId item.productId
      let catalogPrice := jsOrQ (env.getProductPrice pricingId currency) product.basePrice
      let unitPrice := item.customPrice.getD catalogPrice
      let totalPrice := unitPrice * item.quantity
      match buildQuotationItems env currency rest (index + 1) with
      | .error e => .error e
      | .ok tail =>
        .ok ({ id := item.productId ++ "-" ++ toString index
               name := product.name
               description := product.shortDescription
               quantity := item.quantity
               unitPrice := unitPrice
               totalPrice := totalPrice
               specifications := product.specifications
               images := product.images } :: tail)

/-- The terms assembled by the quotation-create route (validity as an
abstract day count added to `now`, nullish-coalesced defaults). -/
def mkTerms (env : Env) (validated : CreateBody) : TermsOut :=
  let validityDays := validated.validityDays.getD env.config.defaultValidityDays
  { validUntil := env.now + validityDays
    paymentTerms := (validated.terms.bind (fun t => t.paymentTerms)).getD "Net 30"
    deliveryTerms := (validated.terms.bind (fun t => t.deliveryTerms)).getD "FOB Origin"
    warranty := validated.terms.bind (fun t => t.warranty)
    leadTime := validated.terms.bind (fun t => t.leadTime)
    shippingCost := (validated.terms.bind (fun t => t.shippingCost)).getD 0
    taxRate := env.config.defaultTaxRate
    discount := validated.terms.bind (fun t => t.discount) }

/-- The record handed to the database proxy: the quotation with its items,
terms and calculated totals. -/
def mkStored (env : Env) (validated : CreateBody)
    (quotationItems : List QuotationItem) : StoredInput :=
  let terms := mkTerms env validated
  let totals := env.calcTotals quotationItems terms
  { quotationNumber := env.genQuotationNumber (some "QDS")
    customerData := validated.customer
    items := quotationItems
    currency := validated.currency
    subtotal := totals.subtotal
    tax := totals.tax
    shipping := totals.shipping
    discount := totals.discount
    total := totals.total
    terms := terms
    notes := validated.notes
    internalNotes := validated.internalNotes
    status := "draft"
    date := env.now }

/-- The quotation-create POST handler: Zod validation (400 with details on
failure), item construction from the catalog (a missing product throws and is
caught as 500), assembly of terms/totals, and storage through the database
proxy (a proxy failure is caught as 500). -/
def POST {Raw : Type} (env : Env) (parse : Raw → Except (List String) CreateBody)
    (raw : Raw) : Res × List Call :=
  match parse raw with
  | .error e => (.badRequest e, [])
  | .ok validated =>
    match buildQuotationItems env validated.currency validated.items 0 with
    | .error msg => (.serverError msg, [])
    | .ok quotationItems =>
      let stored := mkStored env validated quotationItems
      match env.dbCreateQuotation stored with
      | .error e => (.serverError e, [.dbCreateQuotation stored])
      | .ok storedResult => (.created storedResult, [.dbCreateQuotation stored])

end QuotationCreate

namespace InvoiceCreate

/-- Validated customer of the invoice-create request's quotation. -/
structure CustomerIn where
  name : String
  email : String
  phone : Option String
  address : Option QuotationCreate.Address
deriving DecidableEq

/-- One validated quotation item of the invoice-create request. -/
structure ItemIn where
  id : String
  name : String
  description : String
  quantity : ℚ
  unitPrice : ℚ
  totalPrice : ℚ
deriving DecidableEq

/-- Validated terms of the invoice-create request's quotation. -/
structure TermsIn where
  validUntil : String
  paymentTerms : String
  deliveryTerms : String
deriving DecidableEq

/-- The validated quotation of the invoice-create request. -/
structure QuotationIn where
  quotationNumber : String
  customer : CustomerIn
  items : List ItemIn
  subtotal : ℚ
  tax : ℚ
  shipping : ℚ
  discount : ℚ
  total : ℚ
  terms : TermsIn
  notes : Option String
deriving DecidableEq

/-- The validated invoice-create request body. -/
structure Body where
  quotation : QuotationIn
  sendEmail : Bool
  dueInDays : Nat
deriving DecidableEq

/-- Input of the payment provider's customer-creation call. -/
structure CustomerCreateIn where
  name : String
  email : String
  phone : Option String
  address : Option QuotationCreate.Address
deriving DecidableEq

/-- One line item of the payment provider's invoice-creation call. -/
structure LineItem where
  description : String
  quantity : ℚ
  unitPrice : ℚ
  amount : ℚ
deriving DecidableEq

/-- Input of the payment provider's invoice-creation call. -/
structure InvoiceCreateIn where
  customerId : String
  dueDate : Nat
  lineItems : List LineItem
  subtotal : ℚ
  tax : ℚ
  shipping : ℚ
  discount : ℚ
  total : ℚ
  notes : Option String
  sendEmail : Bool
deriving DecidableEq

/-- Environment of the invoice-create route: the payment provider and clock. -/
structure Env where
  customersCreate : CustomerCreateIn → Except String Webhook.Customer
  invoicesCreate : InvoiceCreateIn → Except String InvoiceStatus.Invoice
  now : Nat

/-- Downstream collaborator calls of the invoice-create route. -/
inductive Call where
  | customersCreate (input : CustomerCreateIn)
  | invoicesCreate (input : InvoiceCreateIn)
deriving DecidableEq

/-- Responses of the invoice-create POST handler: 400 with validation
details, 500 with the thrown message, 201 created. -/
inductive Res where
  | badRequest (details : List String)
  | serverError (message : String)
  | created (invoice : InvoiceStatus.Invoice) (customerId : String)
deriving DecidableEq

/-- HTTP status code of each invoice-create response. -/
def Res.status : Res → Nat
  | .badRequest _ => 400
  | .serverError _ => 500
  | .created _ _ => 201

/-- The invoice-create POST handler: Zod validation (400 with details on
failure), then creates the customer and the invoice with the payment
provider; provider failures are caught as 500 with the thrown message. -/
def POST {Raw : Type} (env : Env) (parse : Raw → Except (List String) Body)
    (raw : Raw) : Res × List Call :=
  match parse raw with
  | .error e => (.badRequest e, [])
  | .ok validated =>
    let q := validated.quotation
    let custIn : CustomerCreateIn :=
      { name := q.customer.name
        email := q.customer.email
        phone := q.customer.phone
        address := q.customer.address }
    match env.customersCreate custIn with
    | .error e => (.serverError e, [.customersCreate custIn])
    | .ok customer =>
      let invIn : InvoiceCreateIn :=
        { customerId := customer.id
          dueDate := env.now + validated.dueInDays
          lineItems := q.items.map (fun item =>
            { description := item.name ++ " - " ++ item.description
              quantity := item.quantity
              unitPrice := item.unitPrice
              amount := item.totalPrice })
          subtotal := q.subtotal
          tax := q.tax
          shipping := q.shipping
          discount := q.discount
          total := q.total
          notes := q.notes
          sendEmail := validated.sendEmail }
      match env.invoicesCreate invIn with
      | .error e => (.serverError e, [.customersCreate custIn, .invoicesCreate invIn])
      | .ok invoice =>
        (.created invoice customer.id, [.customersCreate custIn, .invoicesCreate invIn])

end InvoiceCreate

namespace QuotationPdf

/-- The quotation object received by the quotation-pdf route (an unvalidated
JSON body; the route only checks the three fields for truthiness). -/
structure PdfQuotation where
  quotationNumber : Option String
  customer : Option QuotationGet.StoredCustomer
  items : Option (List QuotationCreate.QuotationItem)
deriving DecidableEq

/-- Environment of the quotation-pdf route: the PDF renderer. -/
structure Env where
  render : PdfQuotation → Except String PdfBuf

/-- Downstream collaborator calls of the quotation-pdf route. -/
inductive Call where
  | render
deriving DecidableEq

/-- Responses of the quotation-pdf POST handler: 400 invalid quotation data,
500 with the thrown message, or the 200 PDF binary with its filename. -/
inductive Res where
  | invalidData
  | serverError (message : String)
  | pdf (filename : String) (buffer : PdfBuf)
deriving DecidableEq

/-- HTTP status code of each quotation-pdf response. -/
def Res.status : Res → Nat
  | .invalidData => 400
  | .serverError _ => 500
  | .pdf _ _ => 200

/-- Content-Type header of each quotation-pdf response. -/
def Res.contentType : Res → String
  | .pdf _ _ => "application/pdf"
  | _ => "application/json"

/-- Content-Disposition header of each quotation-pdf response. -/
def Res.contentDisposition : Res → Option String
  | .pdf filename _ => some ("attachment; filename=\"" ++ filename ++ "\"")
  | _ => none

/-- The quotation-pdf POST handler: require truthy `quotationNumber` and
present `customer` and `items`, render the PDF (a renderer failure is
caught as 500), and return it as an attachment named after the quotation
number. -/
def POST (env : Env) (quotation : PdfQuotation) : Res × List Call :=
  if !truthyOptStr quotation.quotationNumber
      || quotation.customer.isNone || quotation.items.isNone then
    (.invalidData, [])
  else
    match env.render quotation with
    | .error e => (.serverError e, [.render])
    | .ok pdfBuffer =>
      (.pdf ("quotation-" ++ quotation.quotationNumber.getD "" ++ ".pdf") pdfBuffer,
        [.render])

end QuotationPdf

namespace QuotationEmail

/-- Validated email options of the quotation-email request
(attachPDF defaults to true). -/
structure EmailOpts where
  subject : Option String
  message : Option String
  cc : Option (List String)
  attachPDF : Bool
deriving DecidableEq

/-- The validated quotation-email request body (the schema refinements
require a quotationId or a quotation, and customer data inside a given
quotation). -/
structure Body where
  quotationId : Option String
  quotation : Option QuotationGet.StoredQuotation
  emailOptions : Option EmailOpts
  documentStatus : DocStatus
deriving DecidableEq

/-- Environment of the quotation-email route: database proxy, PDF renderer
(over the customer-normalized quotation), email sender, and the PDF utility
library's status label, document hash and date. -/
structure Env where
  getQuotation : String → Except String QuotationGet.GetQuotationResult
  render : QuotationGet.StoredQuotation → QuotationGet.StoredCustomer → DocStatus →
    String → Except String PdfBuf
  sendEmail : String → String → Except String Unit
  statusLabel : DocStatus → String
  docHash : String → String
  todayISO : String
  companyName : String

/-- Downstream collaborator calls of the quotation-email route. -/
inductive Call where
  | getQuotation (id : String)
  | render
  | sendEmail (recipient : String) (subject : String)
deriving DecidableEq

/-- Responses of the quotation-email POST handler. -/
inductive Res where
  | badRequest (details : List String)
  | notFound
  | quotationDataMissing
  | customerDataMissing
  | serverError (message : String)
  | sent (recipient : String)
deriving DecidableEq

/-- HTTP status code of each quotation-email response. -/
def Res.status : Res → Nat
  | .badRequest _ => 400
  | .notFound => 404
  | .quotationDataMissing => 400
  | .customerDataMissing => 400
  | .serverError _ => 500
  | .sent _ => 200

/-- The part of the quotation-email handler after the quotation is resolved:
normalize the customer (`customer || customerData`), build the subject,
optionally render the PDF attachment, send the email; render or send
failures are caught as 500 with the thrown message. -/
def afterFetch (env : Env) (body : Body) (calls : List Call)
    (quotation : Option QuotationGet.StoredQuotation) : Res × List Call :=
  match quotation with
  | none => (.quotationDataMissing, calls)
  | some q =>
    match (match q.customer with
           | some c => some c
           | none => q.customerData) with
    | none => (.customerDataMissing, calls)
    | some customer =>
      let label := env.statusLabel body.documentStatus
      let suffix := if label = "" then "" else " - " ++ label
      let subject := (body.emailOptions.bind (fun o => o.subject)).getD
        (env.companyName ++ " - Quotation [" ++ q.quotationNumber ++ "]" ++ suffix)
      let hash := env.docHash ("Quotation-" ++ q.quotationNumber ++ "-" ++ env.todayISO)
      let attach :=
        match body.emailOptions with
        | none => true
        | some o => o.attachPDF
      if attach then
        match env.render q customer body.documentStatus hash with
        | .error e => (.serverError e, calls ++ [.render])
        | .ok _ =>
          match env.sendEmail customer.email subject with
          | .error e =>
            (.serverError e, calls ++ [.render, .sendEmail customer.email subject])
          | .ok _ =>
            (.sent customer.email, calls ++ [.render, .sendEmail customer.email subject])
      else
        match env.sendEmail customer.email subject with
        | .error e => (.serverError e, calls ++ [.sendEmail customer.email subject])
        | .ok _ => (.sent customer.email, calls ++ [.sendEmail customer.email subject])

/-- The quotation-email POST handler: Zod validation (400 with details on
failure), optional database lookup when only a quotationId is given (404
when the lookup finds nothing), then `afterFetch`. -/
def POST {Raw : Type} (env : Env) (parse : Raw → Except (List String) Body)
    (raw : Raw) : Res × List Call :=
  match parse raw with
  | .error e => (.badRequest e, [])
  | .ok body =>
    if truthyOptStr body.quotationId && body.quotation.isNone then
      let qid := body.quotationId.getD ""
      match env.getQuotation qid with
      | .error e => (.serverError e, [.getQuotation qid])
      | .ok result =>
        if !result.success || result.quotation.isNone then
          (.notFound, [.getQuotation qid])
        else
          afterFetch env body [.getQuotation qid] result.quotation
    else
      afterFetch env body [] body.quotation

end QuotationEmail

namespace Datasheet

/-- Validated email options of the datasheet request. -/
structure EmailOpts where
  subject : Option String
  message : Option String
  cc : Option (List String)
  bcc : Option (List String)
deriving DecidableEq

/-- The validated datasheet request body (language defaults to en,
documentStatus to WIP, returnPdf to false). -/
structure Body where
  productId : String
  variantId : Option String
  customer : Option QuotationGet.StoredCustomer
  emailOptions : Option EmailOpts
  documentStatus : DocStatus
  language : Lang
  languages : Option (List Lang)
  returnPdf : Bool
deriving DecidableEq

/-- The data record handed to the datasheet PDF component. -/
structure DatasheetData where
  productId : String
  sku : String
  productName : String
  shortDescription : String
  longDescription : String
  specifications : List (String × String)
  keySpecs : List (String × String)
  features : List String
  productImage : Option String
  sideViewImage : Option String
deriving DecidableEq

/-- Environment of the datasheet route: catalog and photo-set lookups, object
storage, the PDF renderer, the email sender and the PDF utility library. -/
structure Env where
  getProductById : String → Option Catalog.Product
  getProductWithVariant : String → Option String → Option Catalog.Product
  getPhotosByProductId : String → Option Catalog.PhotoSet
  getFile : String → Except String (Option FileObj)
  base64 : List Nat → String
  render : Lang → DatasheetData → DocStatus → String → Except String PdfBuf
  sendEmail : String → String → Except String Unit
  statusLabel : DocStatus → String
  docHash : String → String
  todayISO : String
  companyName : String

/-- Downstream collaborator calls of the datasheet route. -/
inductive Call where
  | getFile (s3Key : String)
  | render (language : Lang)
  | sendEmail (recipient : String) (subject : String)
deriving DecidableEq

/-- A truthy specification lookup (`if (product.specifications[key])`):
undefined and the empty string are falsy. -/
def specTruthy (specs : List (String × String)) (key : String) : Option String :=
  match specs.lookup key with
  | none => none
  | some v => if v = "" then none else some v

/-- The key-spec extraction chain of `buildDatasheetData`, in source order. -/
def keySpecsOf (p : Catalog.Product) : List (String × String) :=
  (match specTruthy p.specifications "Cooling Capacity" with
   | some v => [("Cooling Capacity", v)]
   | none => []) ++
  (match specTruthy p.specifications "Total Power Consumption" with
   | some v => [("Power Consumption", v)]
   | none => []) ++
  (match specTruthy p.specifications "Refrigerant" with
   | some v => [("Refrigerant", (v.splitOn " ").headD "")]
   | none => []) ++
  (match specTruthy p.specifications "Number of Compressors" with
   | some v => [("Compressors", v)]
   | none => []) ++
  (match specTruthy p.specifications "Temperature Control Range" with
   | some v => [("Temp Range", v)]
   | none => []) ++
  (match specTruthy p.specifications "Dimensions (L×W×H)" with
   | some v => [("Dimensions", v)]
   | none => [])

/-- One feature line: strip a single leading bullet character and the
whitespace after it, then trim. -/
def stripBullet (line : String) : String :=
  let cs := line.data
  let stripped :=
    match cs with
    | c :: rest =>
      if c = '•' || c = '-' || c = '*' then rest.dropWhile Char.isWhitespace else cs
    | [] => []
  (String.mk stripped).trim

/-- Feature lines extracted from the text after the first `Key Features:`
marker: split on newlines, strip bullets, drop empty lines. -/
def featureLines (afterMarker : String) : List String :=
  ((afterMarker.splitOn "\n").map stripBullet).filter (fun l => l ≠ "")

/-- The feature extraction of `buildDatasheetData`: the lines after the first
`Key Features:` marker of the long description, falling back to selected
specifications when none are found. -/
def featuresOf (p : Catalog.Product) : List String :=
  let fromDesc :=
    match p.longDescription.splitOn "Key Features:" with
    | [] => []
    | [_] => []
    | _ :: rest => featureLines (String.intercalate "Key Features:" rest)
  if fromDesc = [] then
    (match specTruthy p.specifications "Compressor Type" with
     | some v => [v]
     | none => []) ++
    (match specTruthy p.specifications "Safety Protection" with
     | some v => ["Safety: " ++ v]
     | none => []) ++
    (match specTruthy p.specifications "Control System" with
     | some v => [v]
     | none => [])
  else fromDesc

/-- The SKU of a datasheet: the `SKU` specification, or the uppercased
product id when that is absent or empty (JavaScript `||`). -/
def skuOf (p : Catalog.Product) : String :=
  jsOrStr (p.specifications.lookup "SKU") p.id.toUpper

/-- `buildDatasheetData`: assemble the datasheet record from the catalog
product and the optionally fetched images. -/
def buildDatasheetData (p : Catalog.Product)
    (productImage sideViewImage : Option String) : DatasheetData :=
  { productId := p.id
    sku := skuOf p
    productName := replaceFirst p.name "Desert Solutions " ""
    shortDescription := p.shortDescription
    longDescription := ((p.longDescription.splitOn "Key Features:").headD "").trim
    specifications := p.specifications
    keySpecs := (keySpecsOf p).take 4
    features := featuresOf p
    productImage := productImage
    sideViewImage := sideViewImage }

/-- Fetch the front (photos[0]) and side (photos[1]) images of the product's
photo set, after stripping the `-r407c` / `-r290` id suffixes; storage
failures are swallowed by `fetchImageAsDataUrl`. -/
def fetchImages (env : Env) (productId : String) :
    Option String × Option String × List Call :=
  match env.getPhotosByProductId
      (replaceFirst (replaceFirst productId "-r407c" "") "-r290" "") with
  | none => (none, none, [])
  | some photoSet =>
    let front :=
      match photoSet.photos.get? 0 with
      | none => (none, ([] : List Call))
      | some ph => (fetchImageAsDataUrl env.getFile env.base64 ph.s3Key, [Call.getFile ph.s3Key])
    let side :=
      match photoSet.photos.get? 1 with
      | none => (none, ([] : List Call))
      | some ph => (fetchImageAsDataUrl env.getFile env.base64 ph.s3Key, [Call.getFile ph.s3Key])
    (front.1, side.1, front.2 ++ side.2)

/-- The per-language PDF rendering loop; the first renderer failure is
rethrown (and caught by the route as 500). -/
def renderLangs (env : Env) (data : DatasheetData) (ds : DocStatus) (hash : String) :
    List Lang → Except String (List (Lang × PdfBuf)) × List Call
  | [] => (.ok [], [])
  | l :: ls =>
    match env.render l data ds hash with
    | .error e => (.error e, [.render l])
    | .ok buf =>
      match renderLangs env data ds hash ls with
      | (.error e, calls) => (.error e, .render l :: calls)
      | (.ok rest, calls) => (.ok ((l, buf) :: rest), .render l :: calls)

/-- Responses of the datasheet POST handler. -/
inductive Res where
  | badRequest (details : List String)
  | notFound (productId : String)
  | customerEmailRequired
  | serverError (message : String)
  | pdf (filename : String) (buffer : PdfBuf)
  | sent (recipient : String)
deriving DecidableEq

/-- HTTP status code of each datasheet response. -/
def Res.status : Res → Nat
  | .badRequest _ => 400
  | .notFound _ => 404
  | .customerEmailRequired => 400
  | .serverError _ => 500
  | .pdf _ _ => 200
  | .sent _ => 200

/-- Content-Type header of each datasheet response. -/
def Res.contentType : Res → String
  | .pdf _ _ => "application/pdf"
  | _ => "application/json"

/-- Content-Disposition header of each datasheet response. -/
def Res.contentDisposition : Res → Option String
  | .pdf filename _ => some ("attachment; filename=\"" ++ filename ++ "\"")
  | _ => none

/-- The datasheet POST handler: Zod validation (400 with details), catalog
lookup (404 on a miss; a truthy variantId switches to the variant lookup),
photo fetches with swallowed failures, per-language PDF rendering (renderer
failures are caught as 500), then either the PDF binary (returnPdf) or the
datasheet email (which requires a truthy customer email). -/
def POST {Raw : Type} (env : Env) (parse : Raw → Except (List String) Body)
    (raw : Raw) : Res × List Call :=
  match parse raw with
  | .error e => (.badRequest e, [])
  | .ok body =>
    let product :=
      if truthyOptStr body.variantId then
        env.getProductWithVariant body.productId body.variantId
      else env.getProductById body.productId
    match product with
    | none => (.notFound body.productId, [])
    | some product =>
      match fetchImages env body.productId with
      | (productImage, sideViewImage, imageCalls) =>
        let data := buildDatasheetData product productImage sideViewImage
        let hash := env.docHash ("Datasheet-" ++ data.sku ++ "-" ++ env.todayISO)
        let langsToGenerate :=
          match body.languages with
          | some (l :: ls) => l :: ls
          | _ => [body.language]
        match renderLangs env data body.documentStatus hash langsToGenerate with
        | (.error e, renderCalls) => (.serverError e, imageCalls ++ renderCalls)
        | (.ok pdfBuffers, renderCalls) =>
          if body.returnPdf then
            match pdfBuffers with
            | [] =>
              -- unreachable: langsToGenerate is nonempty by construction; in the
              -- source an empty buffer list would crash and be caught as 500
              (.serverError "pdfBuffers is empty", imageCalls ++ renderCalls)
            | (_, buf) :: _ =>
              (.pdf ("datasheet-" ++ data.sku ++ ".pdf") buf, imageCalls ++ renderCalls)
          else
            match body.customer with
            | none => (.customerEmailRequired, imageCalls ++ renderCalls)
            | some customer =>
              if customer.email = "" then
                (.customerEmailRequired, imageCalls ++ renderCalls)
              else
                let label := env.statusLabel body.documentStatus
                let suffix := if label = "" then "" else " - " ++ label
                let subject := (body.emailOptions.bind (fun o => o.subject)).getD
                  (env.companyName ++ " - Product Datasheet [" ++ data.sku ++ "]" ++ suffix)
                match env.sendEmail customer.email subject with
                | .error e =>
                  (.serverError e,
                    imageCalls ++ renderCalls ++ [.sendEmail customer.email subject])
                | .ok _ =>
                  (.sent customer.email,
                    imageCalls ++ renderCalls ++ [.sendEmail customer.email subject])

end Datasheet

namespace PhotoAddendum

/-- Validated includePhotos options (all photo types default to true,
actualModelOnly to false). -/
structure IncOpts where
  productOverview : Bool
  detail : Bool
  installation : Bool
  actualModelOnly : Bool
deriving DecidableEq

/-- Validated email options of the photo-addendum request. -/
structure EmailOpts where
  subject : Option String
  message : Option String
  cc : Option (List String)
deriving DecidableEq

/-- The validated photo-addendum request body (the schema refinement
requires a quotationId, a quotationNumber or a customer). -/
structure Body where
  quotationId : Option String
  quotationNumber : Option String
  productIds : List String
  customer : Option QuotationGet.StoredCustomer
  emailOptions : Option EmailOpts
  includePhotos : Option IncOpts
  documentStatus : DocStatus
deriving DecidableEq

/-- One product section of the photo-addendum PDF: each kept photo carries
its embedded image data URL. -/
structure PAProduct where
  productId : String
  productName : String
  sku : String
  refrigerant : String
  photos : List (Catalog.ProductPhoto × String)
deriving DecidableEq

/-- The data record handed to the photo-addendum PDF component. -/
structure PAData where
  quotationNumber : String
  customerName : String
  products : List PAProduct
deriving DecidableEq

/-- Environment of the photo-addendum route. -/
structure Env where
  getQuotation : String → Except String QuotationGet.GetQuotationResult
  getPhotosByProductId : String → Option Catalog.PhotoSet
  getFile : String → Except String (Option FileObj)
  base64 : List Nat → String
  render : PAData → DocStatus → String → Except String PdfBuf
  sendEmail : String → String → Except String Unit
  statusLabel : DocStatus → String
  docHash : String → String
  todayISO : String
  companyName : String

/-- Downstream collaborator calls of the photo-addendum route. -/
inductive Call where
  | getQuotation (id : String)
  | getFile (s3Key : String)
  | render
  | sendEmail (recipient : String) (subject : String)
deriving DecidableEq

/-- The photo filter of the photo-addendum route. -/
def photoIncluded (inc : IncOpts) (p : Catalog.ProductPhoto) : Bool :=
  if inc.actualModelOnly && !p.isActualModel then false
  else if !inc.productOverview && p.type == Catalog.PhotoType.product_overview then false
  else if !inc.detail && p.type == Catalog.PhotoType.detail then false
  else if !inc.installation && p.type == Catalog.PhotoType.installation then false
  else true

/-- Fetch each photo's image as a data URL, keeping only the photos whose
fetch succeeded (failures are logged and skipped). -/
def fetchPhotos (env : Env) :
    List Catalog.ProductPhoto → List (Catalog.ProductPhoto × String) × List Call
  | [] => ([], [])
  | p :: rest =>
    let url := fetchImageAsDataUrl env.getFile env.base64 p.s3Key
    match fetchPhotos env rest with
    | (tail, calls) =>
      match url with
      | some u => ((p, u) :: tail, Call.getFile p.s3Key :: calls)
      | none => (tail, Call.getFile p.s3Key :: calls)

/-- The per-product loop: skip unknown products, filter photos by the
includePhotos options, fetch images, and keep products with at least one
fetched photo. -/
def buildProducts (env : Env) (inc : Option IncOpts) :
    List String → List PAProduct × List Call
  | [] => ([], [])
  | pid :: rest =>
    match env.getPhotosByProductId pid with
    | none => buildProducts env inc rest
    | some photoSet =>
      let photos :=
        match inc with
        | none => photoSet.photos
        | some opts => photoSet.photos.filter (photoIncluded opts)
      match fetchPhotos env photos with
      | (withUrls, fetchCalls) =>
        match buildProducts env inc rest with
        | (tailProducts, tailCalls) =>
          if withUrls.length > 0 then
            ({ productId := photoSet.productId
               productName := photoSet.productName
               sku := photoSet.sku
               refrigerant := photoSet.refrigerant
               photos := withUrls } :: tailProducts,
              fetchCalls ++ tailCalls)
          else (tailProducts, fetchCalls ++ tailCalls)

/-- Responses of the photo-addendum POST handler. -/
inductive Res where
  | badRequest (details : List String)
  | quotationNotFound
  | customerEmailRequired
  | noPhotosFound
  | serverError (message : String)
  | sent (recipient : String)
deriving DecidableEq

/-- HTTP status code of each photo-addendum response. -/
def Res.status : Res → Nat
  | .badRequest _ => 400
  | .quotationNotFound => 404
  | .customerEmailRequired => 400
  | .noPhotosFound => 404
  | .serverError _ => 500
  | .sent _ => 200

/-- The part of the photo-addendum handler after the customer is resolved:
build the per-product photo data (404 when no product yields photos),
render the PDF and send the email; render or send failures are caught as
500 with the thrown message. -/
def afterCustomer (env : Env) (body : Body) (calls : List Call)
    (customer : QuotationGet.StoredCustomer)
    (resolvedQuotationNumber : Option String) : Res × List Call :=
  match buildProducts env body.includePhotos body.productIds with
  | (productsWithPhotos, buildCalls) =>
    if productsWithPhotos.length = 0 then
      (.noPhotosFound, calls ++ buildCalls)
    else
      let pdfData : PAData :=
        { quotationNumber := jsOrStr resolvedQuotationNumber "N/A"
          customerName := customer.name
          products := productsWithPhotos }
      let hash := env.docHash
        ("PhotoAddendum-" ++ jsOrStr resolvedQuotationNumber "N/A" ++ "-" ++ env.todayISO)
      match env.render pdfData body.documentStatus hash with
      | .error e => (.serverError e, calls ++ buildCalls ++ [.render])
      | .ok _ =>
        let label := env.statusLabel body.documentStatus
        let suffix := if label = "" then "" else " - " ++ label
        let qnPart :=
          if truthyOptStr resolvedQuotationNumber then
            " [" ++ resolvedQuotationNumber.getD "" ++ "]"
          else ""
        let subject := (body.emailOptions.bind (fun o => o.subject)).getD
          (env.companyName ++ " - Product Photos" ++ qnPart ++ suffix)
        match env.sendEmail customer.email subject with
        | .error e =>
          (.serverError e, calls ++ buildCalls ++ [.render, .sendEmail customer.email subject])
        | .ok _ =>
          (.sent customer.email,
            calls ++ buildCalls ++ [.render, .sendEmail customer.email subject])

/-- The photo-addendum POST handler: Zod validation (400 with details on
failure), optional quotation lookup when a quotationId but no customer is
given (404 when the lookup finds nothing; the stored customer and quotation
number are taken from the fetched quotation), a truthy customer email
requirement (400), then `afterCustomer`. -/
def POST {Raw : Type} (env : Env) (parse : Raw → Except (List String) Body)
    (raw : Raw) : Res × List Call :=
  match parse raw with
  | .error e => (.badRequest e, [])
  | .ok body =>
    if truthyOptStr body.quotationId && body.customer.isNone then
      let qid := body.quotationId.getD ""
      match env.getQuotation qid with
      | .error e => (.serverError e, [.getQuotation qid])
      | .ok result =>
        if !result.success || result.quotation.isNone then
          (.quotationNotFound, [.getQuotation qid])
        else
          match result.quotation with
          | none => (.quotationNotFound, [.getQuotation qid])
          | some q =>
            let customer :=
              match q.customer with
              | some c => some c
              | none => q.customerData
            match customer with
            | none => (.customerEmailRequired, [.getQuotation qid])
            | some c =>
              if c.email = "" then (.customerEmailRequired, [.getQuotation qid])
              else afterCustomer env body [.getQuotation qid] c (some q.quotationNumber)
    else
      match body.customer with
      | none => (.customerEmailRequired, [])
      | some c =>
        if c.email = "" then (.customerEmailRequired, [])
        else afterCustomer env body [] c body.quotationNumber

end PhotoAddendum

/-! Concrete instances used by witnesses and counterexamples. -/

/-- A 64-character all-zero hex string (a well-formed SHA-256-sized hex digest). -/
def hexZeros64 : String :=
  "0000000000000000000000000000000000000000000000000000000000000000"

/-- Concrete webhook environment whose digest function returns 32 zero bytes. -/
def c1Env : Webhook.Env where
  hmacSha256 := fun _ _ => List.replicate 32 0
  parseJson := fun _ => .error "invalid json"
  invoicesGet := fun _ => .error "invoice not found"
  customersGet := fun _ => .error "customer not found"
  sendEmail := fun _ _ => .error "send failure"

/-- Concrete webhook environment whose body parses to an unhandled event type. -/
def c10Env : Webhook.Env where
  hmacSha256 := fun _ _ => List.replicate 32 0
  parseJson := fun _ => .ok ⟨"customer.created", ⟨"inv1"⟩⟩
  invoicesGet := fun _ => .error "e"
  customersGet := fun _ => .error "e"
  sendEmail := fun _ _ => .error "e"

/-- A sample catalog product. -/
def sampleProduct : Catalog.Product where
  id := "p1"
  name := "Desert Solutions Chiller"
  shortDescription := "short"
  longDescription := "long"
  basePrice := 100
  specifications := [("SKU", "DS-1")]
  images := []

/-- A sample request customer. -/
def sampleCustomerIn : QuotationCreate.CustomerIn where
  name := "Jane Doe"
  company := none
  email := "jane@example.com"
  phone := none
  address := none

/-- A sample stored customer. -/
def sampleStoredCustomer : QuotationGet.StoredCustomer where
  name := "Jane Doe"
  email := "jane@example.com"
  company := none
  salutation := none

/-- A sample validated quotation-create body with one item and no custom
price or variant. -/
def sampleCreateBody : QuotationCreate.CreateBody where
  customer := sampleCustomerIn
  items := [{ productId := "p1", variantId := none, quantity := 2, customPrice := none }]
  terms := none
  notes := none
  internalNotes := none
  validityDays := none
  currency := .USD

/-- A sample photo set with one photo of each type. -/
def samplePhotoSet : Catalog.PhotoSet where
  productId := "ds-acsc-400"
  productName := "Chiller"
  sku := "DS-ACSC-400"
  refrigerant := "R407c"
  photos :=
    [{ s3Key := "a.jpg", type := .product_overview, isActualModel := true },
     { s3Key := "b.jpg", type := .detail, isActualModel := false },
     { s3Key := "c.jpg", type := .installation, isActualModel := true }]

/-- A sample validated photos query. -/
def sampleQuery : Photos.Query where
  type := .detail
  actualModelOnly := false
  expiresIn := 3600

/-- Concrete photos environment knowing only the sample photo set. -/
def photosEnvA : Photos.Env where
  getPhotosByProductId := fun pid => if pid = "ds-acsc-400" then some samplePhotoSet else none
  getPresignedUrl := fun k _ => "https://signed/" ++ k

/-- Concrete invoice-create environment whose provider calls fail. -/
def invoiceCreateEnvA : InvoiceCreate.Env where
  customersCreate := fun _ => .error "provider down"
  invoicesCreate := fun _ => .error "provider down"
  now := 0

/-- Concrete quotation-create environment with one product priced at 50. -/
def quotationCreateEnvA : QuotationCreate.Env where
  getProductById := fun i => if i = "p1" then some sampleProduct else none
  getProductPrice := fun _ _ => some 50
  genQuotationNumber := fun _ => "QDS-1"
  calcTotals := fun _ _ =>
    { subtotal := 100, tax := 0, shipping := 0, discount := 0, total := 100 }
  dbCreateQuotation := fun s => .ok { quotation := s }
  now := 0
  config := { defaultValidityDays := 30, defaultTaxRate := 0 }

/-- Concrete quotation-create environment with an empty catalog. -/
def quotationCreateEnvNone : QuotationCreate.Env where
  getProductById := fun _ => none
  getProductPrice := fun _ _ => none
  genQuotationNumber := fun _ => "QDS-1"
  calcTotals := fun _ _ =>
    { subtotal := 0, tax := 0, shipping := 0, discount := 0, total := 0 }
  dbCreateQuotation := fun s => .ok { quotation := s }
  now := 0
  config := { defaultValidityDays := 30, defaultTaxRate := 0 }

/-- Concrete quotation-create environment whose catalog price for every
product is zero (with the sample product's basePrice at 100). -/
def quotationCreateEnvPriceZero : QuotationCreate.Env where
  getProductById := fun i => if i = "p1" then some sampleProduct else none
  getProductPrice := fun _ _ => some 0
  genQuotationNumber := fun _ => "QDS-1"
  calcTotals := fun _ _ =>
    { subtotal := 200, tax := 0, shipping := 0, discount := 0, total := 200 }
  dbCreateQuotation := fun s => .ok { quotation := s }
  now := 0
  config := { defaultValidityDays := 30, defaultTaxRate := 0 }

/-- Concrete datasheet environment with a trivial renderer. -/
def datasheetEnvA : Datasheet.Env where
  getProductById := fun i => if i = "p1" then some sampleProduct else none
  getProductWithVariant := fun _ _ => none
  getPhotosByProductId := fun _ => none
  getFile := fun _ => .error "storage down"
  base64 := fun _ => ""
  render := fun _ _ _ _ => .ok [37]
  sendEmail := fun _ _ => .ok ()
  statusLabel := fun _ => ""
  docHash := fun _ => "hash"
  todayISO := "2026-10-11"
  companyName := "Desert Solutions"

/-- Concrete photo-addendum environment. -/
def photoAddendumEnvA : PhotoAddendum.Env where
  getQuotation := fun _ => .ok { success := true, quotation := none }
  getPhotosByProductId := fun _ => none
  getFile := fun _ => .error "storage down"
  base64 := fun _ => ""
  render := fun _ _ _ => .ok [37]
  sendEmail := fun _ _ => .ok ()
  statusLabel := fun _ => ""
  docHash := fun _ => "hash"
  todayISO := "2026-10-11"
  companyName := "Desert Solutions"

/-- Concrete quotation-email environment whose email sender fails. -/
def quotationEmailEnvA : QuotationEmail.Env where
  getQuotation := fun _ => .ok { success := true, quotation := none }
  render := fun _ _ _ _ => .ok [37]
  sendEmail := fun _ _ => .error "smtp down"
  statusLabel := fun _ => ""
  docHash := fun _ => "hash"
  todayISO := "2026-10-11"
  companyName := "Desert Solutions"

/-- Concrete products-get environment with an empty catalog. -/
def productsGetEnvA : ProductsGet.Env where
  getProductWithVariant := fun _ _ => none

/-- Concrete quotation-get environment whose lookups succeed but carry no
quotation. -/
def quotationGetEnvA : QuotationGet.Env where
  getQuotation := fun _ => .ok { success := true, quotation := none }

/-- Concrete webhook environment whose body parses to invoice.paid and whose
payment-provider lookup fails. -/
def c5WebhookEnv : Webhook.Env where
  hmacSha256 := fun _ _ => List.replicate 32 0
  parseJson := fun _ => .ok ⟨"invoice.paid", ⟨"inv1"⟩⟩
  invoicesGet := fun _ => .error "mercury down"
  customersGet := fun _ => .error "mercury down"
  sendEmail := fun _ _ => .error "mercury down"

/-- A sample stored quotation carrying its customer under `customer`. -/
def sampleStoredQuotation : QuotationGet.StoredQuotation where
  quotationNumber := "QDS-1"
  customer := some sampleStoredCustomer
  customerData := none

/-- A sample validated quotation-email body with an inline quotation. -/
def sampleEmailBody : QuotationEmail.Body where
  quotationId := none
  quotation := some sampleStoredQuotation
  emailOptions := none
  documentStatus := .WIP

/-- Concrete quotation-pdf environment with a trivial renderer. -/
def quotationPdfEnvA : QuotationPdf.Env where
  render := fun _ => .ok [42]

/-- A sample quotation-pdf request body with the three required fields. -/
def samplePdfQuotation : QuotationPdf.PdfQuotation where
  quotationNumber := some "QDS-1"
  customer := some sampleStoredCustomer
  items := some []

/-- A sample validated datasheet body requesting the PDF directly. -/
def sampleDatasheetBody : Datasheet.Body where
  productId := "p1"
  variantId := none
  customer := none
  emailOptions := none
  documentStatus := .WIP
  language := .en
  languages := none
  returnPdf := true

/-- A sample payment-provider invoice as consumed by the webhook handlers. -/
def sampleWebhookInvoice : Webhook.Invoice where
  id := "inv1"
  customerId := "c1"
  number := "INV-1"
  total := 100
  dueDate := "2026-11-01"
  paymentUrl := "https://pay"

/-- A sample payment-provider customer. -/
def sampleWebhookCustomer : Webhook.Customer where
  id := "c1"
  name := "Jane"
  email := "jane@example.com"

/-- Concrete webhook environment: invoice.payment_failed event, invoice
lookup succeeds, customer lookup fails. -/
def c5WebhookEnvB : Webhook.Env where
  hmacSha256 := fun _ _ => List.replicate 32 0
  parseJson := fun _ => .ok ⟨"invoice.payment_failed", ⟨"inv1"⟩⟩
  invoicesGet := fun _ => .ok sampleWebhookInvoice
  customersGet := fun _ => .error "customer lookup failed"
  sendEmail := fun _ _ => .ok ()

/-- Concrete webhook environment: invoice.overdue event, both lookups
succeed, the email send fails. -/
def c5WebhookEnvC : Webhook.Env where
  hmacSha256 := fun _ _ => List.replicate 32 0
  parseJson := fun _ => .ok ⟨"invoice.overdue", ⟨"inv1"⟩⟩
  invoicesGet := fun _ => .ok sampleWebhookInvoice
  customersGet := fun _ => .ok sampleWebhookCustomer
  sendEmail := fun _ _ => .error "smtp down"

/-- Concrete quotation-get environment whose database proxy fails. -/
def quotationGetEnvErr : QuotationGet.Env where
  getQuotation := fun _ => .error "db down"

/-- Concrete quotation-create environment whose database proxy fails. -/
def quotationCreateEnvDbErr : QuotationCreate.Env where
  getProductById := fun i => if i = "p1" then some sampleProduct else none
  getProductPrice := fun _ _ => some 50
  genQuotationNumber := fun _ => "QDS-1"
  calcTotals := fun _ _ =>
    { subtotal := 100, tax := 0, shipping := 0, discount := 0, total := 100 }
  dbCreateQuotation := fun _ => .error "db down"
  now := 0
  config := { defaultValidityDays := 30, defaultTaxRate := 0 }

/-- A sample validated invoice-create body. -/
def sampleInvoiceBody : InvoiceCreate.Body where
  quotation :=
    { quotationNumber := "QDS-1"
      customer := { name := "Jane Doe", email := "jane@example.com",
                    phone := none, address := none }
      items := [{ id := "p1-0", name := "Chiller", description := "short",
                  quantity := 2, unitPrice := 50, totalPrice := 100 }]
      subtotal := 100
      tax := 0
      shipping := 0
      discount := 0
      total := 100
      terms := { validUntil := "2026-11-01", paymentTerms := "Net 30",
                 deliveryTerms := "FOB Origin" }
      notes := none }
  sendEmail := false
  dueInDays := 30

/-- Concrete invoice-create environment: customer creation succeeds, invoice
creation fails. -/
def invoiceCreateEnvB : InvoiceCreate.Env where
  customersCreate := fun _ => .ok sampleWebhookCustomer
  invoicesCreate := fun _ => .error "provider down"
  now := 0

/-- Concrete quotation-pdf environment whose renderer fails. -/
def quotationPdfEnvErr : QuotationPdf.Env where
  render := fun _ => .error "render failed"

/-- A sample validated quotation-email body that carries only a quotationId. -/
def sampleEmailBodyById : QuotationEmail.Body where
  quotationId := some "q1"
  quotation := none
  emailOptions := none
  documentStatus := .WIP

/-- Concrete quotation-email environment whose database proxy fails. -/
def quotationEmailEnvDbErr : QuotationEmail.Env where
  getQuotation := fun _ => .error "db down"
  render := fun _ _ _ _ => .ok [37]
  sendEmail := fun _ _ => .ok ()
  statusLabel := fun _ => ""
  docHash := fun _ => "hash"
  todayISO := "2026-10-11"
  companyName := "Desert Solutions"

/-- Concrete quotation-email environment whose PDF renderer fails. -/
def quotationEmailEnvRenderErr : QuotationEmail.Env where
  getQuotation := fun _ => .ok { success := true, quotation := none }
  render := fun _ _ _ _ => .error "render failed"
  sendEmail := fun _ _ => .ok ()
  statusLabel := fun _ => ""
  docHash := fun _ => "hash"
  todayISO := "2026-10-11"
  companyName := "Desert Solutions"

/-- Concrete datasheet environment whose PDF renderer fails. -/
def datasheetEnvRenderErr : Datasheet.Env where
  getProductById := fun i => if i = "p1" then some sampleProduct else none
  getProductWithVariant := fun _ _ => none
  getPhotosByProductId := fun _ => none
  getFile := fun _ => .error "storage down"
  base64 := fun _ => ""
  render := fun _ _ _ _ => .error "render failed"
  sendEmail := fun _ _ => .ok ()
  statusLabel := fun _ => ""
  docHash := fun _ => "hash"
  todayISO := "2026-10-11"
  companyName := "Desert Solutions"

/-- Concrete datasheet environment whose email send fails. -/
def datasheetEnvSendErr : Datasheet.Env where
  getProductById := fun i => if i = "p1" then some sampleProduct else none
  getProductWithVariant := fun _ _ => none
  getPhotosByProductId := fun _ => none
  getFile := fun _ => .error "storage down"
  base64 := fun _ => ""
  render := fun _ _ _ _ => .ok [37]
  sendEmail := fun _ _ => .error "smtp down"
  statusLabel := fun _ => ""
  docHash := fun _ => "hash"
  todayISO := "2026-10-11"
  companyName := "Desert Solutions"

/-- A sample validated datasheet body requesting the email delivery path. -/
def sampleDatasheetEmailBody : Datasheet.Body where
  productId := "p1"
  variantId := none
  customer := some sampleStoredCustomer
  emailOptions := none
  documentStatus := .WIP
  language := .en
  languages := none
  returnPdf := false

/-- Concrete datasheet environment that knows the sample photo set but whose
object storage fails: the fetch helper swallows the failure and the request
still succeeds. -/
def c5DatasheetEnv : Datasheet.Env where
  getProductById := fun i => if i = "p1" then some sampleProduct else none
  getProductWithVariant := fun _ _ => none
  getPhotosByProductId := fun pid => if pid = "p1" then some samplePhotoSet else none
  getFile := fun _ => .error "storage down"
  base64 := fun _ => ""
  render := fun _ _ _ _ => .ok [37]
  sendEmail := fun _ _ => .ok ()
  statusLabel := fun _ => ""
  docHash := fun _ => "hash"
  todayISO := "2026-10-11"
  companyName := "Desert Solutions"

/-- A sample validated photo-addendum body carrying only a quotationId. -/
def samplePABodyById : PhotoAddendum.Body where
  quotationId := some "q1"
  quotationNumber := none
  productIds := ["ds-acsc-400"]
  customer := none
  emailOptions := none
  includePhotos := none
  documentStatus := .WIP

/-- A sample validated photo-addendum body with an inline customer. -/
def samplePABody : PhotoAddendum.Body where
  quotationId := none
  quotationNumber := none
  productIds := ["ds-acsc-400"]
  customer := some sampleStoredCustomer
  emailOptions := none
  includePhotos := none
  documentStatus := .WIP

/-- Concrete photo-addendum environment whose database proxy fails. -/
def photoAddendumEnvDbErr : PhotoAddendum.Env where
  getQuotation := fun _ => .error "db down"
  getPhotosByProductId := fun _ => none
  getFile := fun _ => .error "storage down"
  base64 := fun _ => ""
  render := fun _ _ _ => .ok [37]
  sendEmail := fun _ _ => .ok ()
  statusLabel := fun _ => ""
  docHash := fun _ => "hash"
  todayISO := "2026-10-11"
  companyName := "Desert Solutions"

/-- Concrete photo-addendum environment with working storage but a failing
PDF renderer. -/
def photoAddendumEnvRenderErr : PhotoAddendum.Env where
  getQuotation := fun _ => .ok { success := true, quotation := none }
  getPhotosByProductId := fun pid =>
    if pid = "ds-acsc-400" then some samplePhotoSet else none
  getFile := fun _ => .ok (some { body := some [1], contentType := none })
  base64 := fun _ => "img"
  render := fun _ _ _ => .error "render failed"
  sendEmail := fun _ _ => .ok ()
  statusLabel := fun _ => ""
  docHash := fun _ => "hash"
  todayISO := "2026-10-11"
  companyName := "Desert Solutions"

/-- Concrete photo-addendum environment with working storage and renderer
but a failing email send. -/
def photoAddendumEnvSendErr : PhotoAddendum.Env where
  getQuotation := fun _ => .ok { success := true, quotation := none }
  getPhotosByProductId := fun pid =>
    if pid = "ds-acsc-400" then some samplePhotoSet else none
  getFile := fun _ => .ok (some { body := some [1], contentType := none })
  base64 := fun _ => "img"
  render := fun _ _ _ => .ok [37]
  sendEmail := fun _ _ => .error "smtp down"
  statusLabel := fun _ => ""
  docHash := fun _ => "hash"
  todayISO := "2026-10-11"
  companyName := "Desert Solutions"

/-- A sample payment-provider invoice, partially paid. -/
def sampleInvoice : InvoiceStatus.Invoice where
  id := "inv1"
  number := "INV-1"
  status := "open"
  total := 100
  paidAmount := some 40
  dueDate := "2026-11-01"
  paidAt := none
  paymentUrl := "https://pay"
  customerId := "c1"

/-- Concrete invoice-status environment with one known invoice. -/
def invoiceStatusEnvA : InvoiceStatus.Env where
  invoicesGet := fun i =>
    if i = "inv1" then .ok sampleInvoice else .error "Invoice not found"

/-! ## Theorems -/

set_option maxRecDepth 8192 in
theorem hexCharVal_hexChar : ∀ b : Fin 256,
    hexCharVal (hexChar (b.val / 16)) = some (b.val / 16) ∧
      hexCharVal (hexChar (b.val % 16)) = some (b.val % 16) := by decide

theorem hexDecode_hexEncode (bs : List (Fin 256)) :
    hexDecode (hexEncode bs) = bs.map Fin.val := by
  induction bs with
  | nil => rfl
  | cons b bs ih =>
    obtain ⟨h1, h2⟩ := hexCharVal_hexChar b
    have henc : hexEncode (b :: bs) =
        hexChar (b.val / 16) :: hexChar (b.val % 16) :: hexEncode bs := rfl
    rw [henc]
    simp only [hexDecode, h1, h2, ih, List.map_cons]
    congr 1
    exact Nat.div_add_mod b.val 16

theorem resOf_status_ne_401 (p : Except String Unit × List Webhook.Call) :
    (Webhook.resOf p).1.status ≠ 401 := by
  obtain ⟨r, calls⟩ := p
  cases r <;> simp [Webhook.resOf, Webhook.Res.status]

theorem processEvent_status_ne_401 (env : Webhook.Env) (ev : Webhook.Event) :
    (Webhook.processEvent env ev).1.status ≠ 401 := by
  unfold Webhook.processEvent
  split_ifs <;> first | exact resOf_status_ne_401 _ | simp [Webhook.Res.status]

/-- Claim C1 (amended): the webhook POST handler returns 401 exactly when the
signature header or the timestamp header is absent OR EMPTY, or when the
signature header, hex-decoded as Node `Buffer.from(_, 'hex')` does, differs
from the HMAC-SHA256 digest (keyed with the webhook secret) of
`timestamp.body`; with both headers present and nonempty and a matching
signature the handler never returns 401.  (The original claim said 401
happens exactly on an absent header or a digest mismatch; an empty-string
header is present yet still yields 401 because of JavaScript falsiness.) -/
theorem c1_webhook_unauthorized_amended (env : Webhook.Env) (secret : String)
    (signature timestamp : Option String) (body : String) :
    ((Webhook.POST env secret signature timestamp body).1.status = 401) ↔
      (truthyOptStr signature = false ∨ truthyOptStr timestamp = false ∨
        hexDecode (signature.getD "").data ≠
          (env.hmacSha256 secret ((timestamp.getD "") ++ "." ++ body)).map Fin.val) := by
  simp only [Webhook.POST]
  cases hs : truthyOptStr signature with
  | false => simp [Webhook.Res.status]
  | true =>
    cases ht : truthyOptStr timestamp with
    | false => simp [Webhook.Res.status]
    | true =>
      have hE : hexDecode (String.mk (hexEncode
          (env.hmacSha256 secret ((timestamp.getD "") ++ "." ++ body)))).data =
          (env.hmacSha256 secret ((timestamp.getD "") ++ "." ++ body)).map Fin.val :=
        hexDecode_hexEncode _
      rw [if_neg (by simp)]
      rw [hE]
      by_cases hEq : hexDecode (signature.getD "").data =
          (env.hmacSha256 secret ((timestamp.getD "") ++ "." ++ body)).map Fin.val
      · rw [if_neg (by simp [hEq])]
        cases hp : env.parseJson body with
        | error e => simp [Webhook.Res.status, hEq]
        | ok ev =>
          have h := processEvent_status_ne_401 env ev
          simp [h, hEq]
      · rw [if_pos (Or.inr hEq)]
        simp [Webhook.Res.status, hEq]

/-- Claim C1 counterexample: with the timestamp header present but empty and a
signature header that hex-decodes exactly to the configured digest of
`timestamp.body`, the handler still returns 401, refuting the original
claim's characterization (no header is absent and the decoded signature
equals the digest). -/
theorem c1_counterexample :
    (Webhook.POST c1Env "whsec" (some hexZeros64) (some "") "payload").1.status = 401 ∧
      some hexZeros64 ≠ (none : Option String) ∧
      some "" ≠ (none : Option String) ∧
      hexDecode hexZeros64.data =
        (c1Env.hmacSha256 "whsec" ("" ++ "." ++ "payload")).map Fin.val := by
  refine ⟨by decide, by simp, by simp, by decide⟩

/-- Claim C10: when the signature verifies and the body parses to an event
whose type is none of invoice.paid, invoice.payment_failed, invoice.overdue,
the webhook handler performs no downstream call and returns the 200
acknowledgement (body received=true). -/
theorem c10_unhandled_event_acknowledged (env : Webhook.Env) (secret : String)
    (signature timestamp : Option String) (body : String) (ev : Webhook.Event)
    (hsig : truthyOptStr signature = true)
    (hts : truthyOptStr timestamp = true)
    (hmatch : hexDecode (signature.getD "").data =
      (env.hmacSha256 secret ((timestamp.getD "") ++ "." ++ body)).map Fin.val)
    (hparse : env.parseJson body = .ok ev)
    (h1 : ev.type ≠ "invoice.paid")
    (h2 : ev.type ≠ "invoice.payment_failed")
    (h3 : ev.type ≠ "invoice.overdue") :
    Webhook.POST env secret signature timestamp body = (Webhook.Res.received, []) ∧
      Webhook.Res.received.status = 200 := by
  refine ⟨?_, rfl⟩
  simp only [Webhook.POST]
  have hE : hexDecode (String.mk (hexEncode
      (env.hmacSha256 secret ((timestamp.getD "") ++ "." ++ body)))).data =
      (env.hmacSha256 secret ((timestamp.getD "") ++ "." ++ body)).map Fin.val :=
    hexDecode_hexEncode _
  rw [if_neg (by simp [hsig, hts])]
  rw [hE]
  rw [if_neg (by simp [hmatch])]
  rw [hparse]
  show Webhook.processEvent env ev = _
  simp [Webhook.processEvent, h1, h2, h3]

/-- Claim C3: for every schema-validated endpoint (invoice/create,
quotation/create, datasheet, photo-addendum, quotation/email, photos), a
request whose body or query fails schema validation gets the 400 response
carrying the validation error details, and no downstream collaborator call
is performed. -/
theorem c3_validation_failure_400_no_calls :
    (∀ (Raw : Type) (env : InvoiceCreate.Env)
        (parse : Raw → Except (List String) InvoiceCreate.Body) (raw : Raw)
        (e : List String), parse raw = .error e →
        InvoiceCreate.POST env parse raw = (InvoiceCreate.Res.badRequest e, []) ∧
          (InvoiceCreate.Res.badRequest e).status = 400) ∧
    (∀ (Raw : Type) (env : QuotationCreate.Env)
        (parse : Raw → Except (List String) QuotationCreate.CreateBody) (raw : Raw)
        (e : List String), parse raw = .error e →
        QuotationCreate.POST env parse raw = (QuotationCreate.Res.badRequest e, []) ∧
          (QuotationCreate.Res.badRequest e).status = 400) ∧
    (∀ (Raw : Type) (env : Datasheet.Env)
        (parse : Raw → Except (List String) Datasheet.Body) (raw : Raw)
        (e : List String), parse raw = .error e →
        Datasheet.POST env parse raw = (Datasheet.Res.badRequest e, []) ∧
          (Datasheet.Res.badRequest e).status = 400) ∧
    (∀ (Raw : Type) (env : PhotoAddendum.Env)
        (parse : Raw → Except (List String) PhotoAddendum.Body) (raw : Raw)
        (e : List String), parse raw = .error e →
        PhotoAddendum.POST env parse raw = (PhotoAddendum.Res.badRequest e, []) ∧
          (PhotoAddendum.Res.badRequest e).status = 400) ∧
    (∀ (Raw : Type) (env : QuotationEmail.Env)
        (parse : Raw → Except (List String) QuotationEmail.Body) (raw : Raw)
        (e : List String), parse raw = .error e →
        QuotationEmail.POST env parse raw = (QuotationEmail.Res.badRequest e, []) ∧
          (QuotationEmail.Res.badRequest e).status = 400) ∧
    (∀ (Raw : Type) (env : Photos.Env)
        (parse : Raw → Except (List String) Photos.Query) (productId : String)
        (raw : Raw) (e : List String), parse raw = .error e →
        Photos.GET env parse productId raw = (Photos.Res.badRequest e, []) ∧
          (Photos.Res.badRequest e).status = 400) := by
  refine ⟨?_, ?_, ?_, ?_, ?_, ?_⟩
  · intro Raw env parse raw e h
    exact ⟨by simp [InvoiceCreate.POST, h], rfl⟩
  · intro Raw env parse raw e h
    exact ⟨by simp [QuotationCreate.POST, h], rfl⟩
  · intro Raw env parse raw e h
    exact ⟨by simp [Datasheet.POST, h], rfl⟩
  · intro Raw env parse raw e h
    exact ⟨by simp [PhotoAddendum.POST, h], rfl⟩
  · intro Raw env parse raw e h
    exact ⟨by simp [QuotationEmail.POST, h], rfl⟩
  · intro Raw env parse productId raw e h
    exact ⟨by simp [Photos.GET, h], rfl⟩

/-- Claim C3 witness: concrete validation failures on all six endpoints get
the 400 response with the details and an empty collaborator-call trace. -/
theorem c3_witness :
    InvoiceCreate.POST invoiceCreateEnvA (fun _ : Unit => .error ["invalid"]) () =
        (InvoiceCreate.Res.badRequest ["invalid"], []) ∧
      QuotationCreate.POST quotationCreateEnvA (fun _ : Unit => .error ["invalid"]) () =
        (QuotationCreate.Res.badRequest ["invalid"], []) ∧
      Datasheet.POST datasheetEnvA (fun _ : Unit => .error ["invalid"]) () =
        (Datasheet.Res.badRequest ["invalid"], []) ∧
      PhotoAddendum.POST photoAddendumEnvA (fun _ : Unit => .error ["invalid"]) () =
        (PhotoAddendum.Res.badRequest ["invalid"], []) ∧
      QuotationEmail.POST quotationEmailEnvA (fun _ : Unit => .error ["invalid"]) () =
        (QuotationEmail.Res.badRequest ["invalid"], []) ∧
      Photos.GET photosEnvA (fun _ : Unit => .error ["invalid"]) "ds-acsc-400" () =
        (Photos.Res.badRequest ["invalid"], []) :=
  ⟨(c3_validation_failure_400_no_calls.1 Unit invoiceCreateEnvA _ () ["invalid"] rfl).1,
   (c3_validation_failure_400_no_calls.2.1 Unit quotationCreateEnvA _ () ["invalid"] rfl).1,
   (c3_validation_failure_400_no_calls.2.2.1 Unit datasheetEnvA _ () ["invalid"] rfl).1,
   (c3_validation_failure_400_no_calls.2.2.2.1 Unit photoAddendumEnvA _ () ["invalid"] rfl).1,
   (c3_validation_failure_400_no_calls.2.2.2.2.1 Unit quotationEmailEnvA _ () ["invalid"] rfl).1,
   (c3_validation_failure_400_no_calls.2.2.2.2.2 Unit photosEnvA _ "ds-acsc-400" ()
     ["invalid"] rfl).1⟩

/-- Claim C4 counterexample: quotation creation with a product id that is not
in the catalog does NOT return 404; the thrown `Product not found` error is
caught by the generic handler and returned as 500. -/
theorem c4_counterexample :
    (QuotationCreate.POST quotationCreateEnvNone
        (fun _ : Unit => Except.ok sampleCreateBody) ()).1 =
        QuotationCreate.Res.serverError "Product not found: p1" ∧
      (QuotationCreate.Res.serverError "Product not found: p1").status = 500 ∧
      (500 : Nat) ≠ 404 := by
  refine ⟨by decide, rfl, by decide⟩

/-- Claim C4 (amended): not-found lookups return 404 in the handlers that
guard them explicitly (product details, quotation get, photos), but
quotation creation with an unknown product id instead throws and returns
500 with the `Product not found` message. -/
theorem c4_not_found_amended :
    (∀ (env : ProductsGet.Env) (productId variantId : Option String),
        truthyOptStr productId = true →
        env.getProductWithVariant (productId.getD "") variantId = none →
        ProductsGet.GET env productId variantId = ProductsGet.Res.notFound ∧
          ProductsGet.Res.notFound.status = 404) ∧
    (∀ (env : QuotationGet.Env) (quotationId : Option String)
        (r : QuotationGet.GetQuotationResult),
        truthyOptStr quotationId = true →
        env.getQuotation (quotationId.getD "") = .ok r →
        (!r.success || r.quotation.isNone) = true →
        (QuotationGet.GET env quotationId).1 = QuotationGet.Res.notFound ∧
          QuotationGet.Res.notFound.status = 404) ∧
    (∀ (Raw : Type) (env : Photos.Env)
        (parse : Raw → Except (List String) Photos.Query) (productId : String)
        (raw : Raw) (q : Photos.Query), parse raw = .ok q →
        env.getPhotosByProductId productId = none →
        Photos.GET env parse productId raw = (Photos.Res.notFound productId, []) ∧
          (Photos.Res.notFound productId).status = 404) ∧
    (∀ (Raw : Type) (env : QuotationCreate.Env)
        (parse : Raw → Except (List String) QuotationCreate.CreateBody) (raw : Raw)
        (body : QuotationCreate.CreateBody) (m : String), parse raw = .ok body →
        QuotationCreate.buildQuotationItems env body.currency body.items 0 = .error m →
        QuotationCreate.POST env parse raw = (QuotationCreate.Res.serverError m, []) ∧
          (QuotationCreate.Res.serverError m).status = 500) := by
  refine ⟨?_, ?_, ?_, ?_⟩
  · intro env productId variantId ht hnone
    refine ⟨?_, rfl⟩
    simp only [ProductsGet.GET, ht]
    rw [if_neg (by simp), hnone]
  · intro env quotationId r ht hok hnf
    refine ⟨?_, rfl⟩
    simp only [QuotationGet.GET, ht]
    rw [if_neg (by simp), hok]
    simp only [hnf, if_pos]
  · intro Raw env parse productId raw q hparse hnone
    exact ⟨by simp [Photos.GET, hparse, hnone], rfl⟩
  · intro Raw env parse raw body m hparse hbuild
    exact ⟨by simp [QuotationCreate.POST, hparse, hbuild], rfl⟩

/-- Claim C4 witness: concrete not-found lookups on the product-details,
quotation-get and photos handlers return 404, and a concrete
quotation-create request for an unknown product returns 500. -/
theorem c4_witness :
    ProductsGet.GET productsGetEnvA (some "p1") none = ProductsGet.Res.notFound ∧
      (QuotationGet.GET quotationGetEnvA (some "q1")).1 = QuotationGet.Res.notFound ∧
      Photos.GET photosEnvA (fun _ : Unit => Except.ok sampleQuery) "unknown" () =
        (Photos.Res.notFound "unknown", []) ∧
      QuotationCreate.POST quotationCreateEnvNone
          (fun _ : Unit => Except.ok sampleCreateBody) () =
        (QuotationCreate.Res.serverError "Product not found: p1", []) :=
  ⟨(c4_not_found_amended.1 productsGetEnvA (some "p1") none (by decide) rfl).1,
   (c4_not_found_amended.2.1 quotationGetEnvA (some "q1")
     { success := true, quotation := none } (by decide) rfl (by decide)).1,
   (c4_not_found_amended.2.2.1 Unit photosEnvA _ "unknown" () sampleQuery rfl
     (by decide)).1,
   (c4_not_found_amended.2.2.2 Unit quotationCreateEnvNone _ () sampleCreateBody
     "Product not found: p1" rfl rfl).1⟩

/-- A verified webhook request reduces to the JSON parse and the event
switch. -/
theorem webhookPOST_verified (env : Webhook.Env) (secret : String)
    (signature timestamp : Option String) (body : String)
    (hsig : truthyOptStr signature = true) (hts : truthyOptStr timestamp = true)
    (hmatch : hexDecode (signature.getD "").data =
      (env.hmacSha256 secret ((timestamp.getD "") ++ "." ++ body)).map Fin.val) :
    Webhook.POST env secret signature timestamp body =
      match env.parseJson body with
      | .error e => (.serverError e, [])
      | .ok event => Webhook.processEvent env event := by
  simp only [Webhook.POST]
  have hE : hexDecode (String.mk (hexEncode
      (env.hmacSha256 secret ((timestamp.getD "") ++ "." ++ body)))).data =
      (env.hmacSha256 secret ((timestamp.getD "") ++ "." ++ body)).map Fin.val :=
    hexDecode_hexEncode _
  rw [if_neg (by simp [hsig, hts])]
  rw [hE]
  rw [if_neg (by simp [hmatch])]

/-- Claim C5 counterexample: the datasheet route's image-fetch helper catches
object-storage exceptions and continues; with storage throwing
`storage down`, the getFile calls appear in the trace (the exception is
thrown during processing and no explicit 401/404/400 guard maps it) yet the
request completes with status 200, not 500. -/
theorem c5_counterexample :
    (Datasheet.POST c5DatasheetEnv
        (fun _ : Unit => Except.ok sampleDatasheetBody) ()).2 =
        [Datasheet.Call.getFile "a.jpg", Datasheet.Call.getFile "b.jpg",
          Datasheet.Call.render Lang.en] ∧
      c5DatasheetEnv.getFile "a.jpg" = Except.error "storage down" ∧
      ((Datasheet.POST c5DatasheetEnv
        (fun _ : Unit => Except.ok sampleDatasheetBody) ()).1).status = 200 ∧
      (200 : Nat) ≠ 500 := by
  refine ⟨by decide, rfl, by decide, by decide⟩

/-- Claim C5 (amended): for every handler, any exception thrown during
processing that is not a schema-validation error, is not mapped to
401/404/400 by an explicit guard, AND IS NOT SWALLOWED BY A NESTED
try/catch (the image-fetch helper of the datasheet and photo-addendum
routes catches object-storage failures, logs them and continues) results in
HTTP 500 with a body containing the thrown error's message.  Proved at
every non-swallowed throw site of every handler: the webhook JSON parse and
the three event handlers' provider lookups and email send; the
invoice-status lookup; the quotation-get lookup; quotation-create's
missing-product throw and database store; invoice-create's two provider
calls; quotation-pdf's render; quotation-email's lookup, render and send;
datasheet's render and send; photo-addendum's lookup, render and send.
(The products-get and products-list handlers perform no fallible external
call.) -/
theorem c5_unhandled_exception_500_amended :
    (∀ (env : Webhook.Env) (secret : String) (signature timestamp : Option String)
        (body m : String),
        truthyOptStr signature = true → truthyOptStr timestamp = true →
        hexDecode (signature.getD "").data =
          (env.hmacSha256 secret ((timestamp.getD "") ++ "." ++ body)).map Fin.val →
        env.parseJson body = .error m →
        (Webhook.POST env secret signature timestamp body).1 = .serverError m ∧
          (Webhook.Res.serverError m).status = 500) ∧
    (∀ (env : Webhook.Env) (secret : String) (signature timestamp : Option String)
        (body m : String) (ev : Webhook.Event),
        truthyOptStr signature = true → truthyOptStr timestamp = true →
        hexDecode (signature.getD "").data =
          (env.hmacSha256 secret ((timestamp.getD "") ++ "." ++ body)).map Fin.val →
        env.parseJson body = .ok ev →
        (ev.type = "invoice.paid" ∨ ev.type = "invoice.payment_failed" ∨
          ev.type = "invoice.overdue") →
        (∀ i, env.invoicesGet i = .error m) →
        (Webhook.POST env secret signature timestamp body).1 = .serverError m ∧
          (Webhook.Res.serverError m).status = 500) ∧
    (∀ (env : Webhook.Env) (secret : String) (signature timestamp : Option String)
        (body m : String) (ev : Webhook.Event) (inv : Webhook.Invoice),
        truthyOptStr signature = true → truthyOptStr timestamp = true →
        hexDecode (signature.getD "").data =
          (env.hmacSha256 secret ((timestamp.getD "") ++ "." ++ body)).map Fin.val →
        env.parseJson body = .ok ev →
        (ev.type = "invoice.paid" ∨ ev.type = "invoice.payment_failed" ∨
          ev.type = "invoice.overdue") →
        (∀ i, env.invoicesGet i = .ok inv) →
        (∀ i, env.customersGet i = .error m) →
        (Webhook.POST env secret signature timestamp body).1 = .serverError m ∧
          (Webhook.Res.serverError m).status = 500) ∧
    (∀ (env : Webhook.Env) (secret : String) (signature timestamp : Option String)
        (body m : String) (ev : Webhook.Event) (inv : Webhook.Invoice)
        (cust : Webhook.Customer),
        truthyOptStr signature = true → truthyOptStr timestamp = true →
        hexDecode (signature.getD "").data =
          (env.hmacSha256 secret ((timestamp.getD "") ++ "." ++ body)).map Fin.val →
        env.parseJson body = .ok ev →
        (ev.type = "invoice.paid" ∨ ev.type = "invoice.payment_failed" ∨
          ev.type = "invoice.overdue") →
        (∀ i, env.invoicesGet i = .ok inv) →
        (∀ i, env.customersGet i = .ok cust) →
        (∀ r s, env.sendEmail r s = .error m) →
        (Webhook.POST env secret signature timestamp body).1 = .serverError m ∧
          (Webhook.Res.serverError m).status = 500) ∧
    (∀ (env : InvoiceStatus.Env) (invoiceId : Option String) (m : String),
        truthyOptStr invoiceId = true →
        env.invoicesGet (invoiceId.getD "") = .error m →
        (InvoiceStatus.GET env invoiceId).1 = .serverError m ∧
          (InvoiceStatus.Res.serverError m).status = 500) ∧
    (∀ (env : QuotationGet.Env) (quotationId : Option String) (m : String),
        truthyOptStr quotationId = true →
        env.getQuotation (quotationId.getD "") = .error m →
        (QuotationGet.GET env quotationId).1 = .serverError m ∧
          (QuotationGet.Res.serverError m).status = 500) ∧
    (∀ (Raw : Type) (env : QuotationCreate.Env)
        (parse : Raw → Except (List String) QuotationCreate.CreateBody) (raw : Raw)
        (body : QuotationCreate.CreateBody) (m : String),
        parse raw = .ok body →
        QuotationCreate.buildQuotationItems env body.currency body.items 0 =
          .error m →
        (QuotationCreate.POST env parse raw).1 = .serverError m ∧
          (QuotationCreate.Res.serverError m).status = 500) ∧
    (∀ (Raw : Type) (env : QuotationCreate.Env)
        (parse : Raw → Except (List String) QuotationCreate.CreateBody) (raw : Raw)
        (body : QuotationCreate.CreateBody)
        (items : List QuotationCreate.QuotationItem) (m : String),
        parse raw = .ok body →
        QuotationCreate.buildQuotationItems env body.currency body.items 0 =
          .ok items →
        env.dbCreateQuotation (QuotationCreate.mkStored env body items) = .error m →
        (QuotationCreate.POST env parse raw).1 = .serverError m ∧
          (QuotationCreate.Res.serverError m).status = 500) ∧
    (∀ (Raw : Type) (env : InvoiceCreate.Env)
        (parse : Raw → Except (List String) InvoiceCreate.Body) (raw : Raw)
        (body : InvoiceCreate.Body) (m : String),
        parse raw = .ok body →
        (∀ x, env.customersCreate x = .error m) →
        (InvoiceCreate.POST env parse raw).1 = .serverError m ∧
          (InvoiceCreate.Res.serverError m).status = 500) ∧
    (∀ (Raw : Type) (env : InvoiceCreate.Env)
        (parse : Raw → Except (List String) InvoiceCreate.Body) (raw : Raw)
        (body : InvoiceCreate.Body) (cust : Webhook.Customer) (m : String),
        parse raw = .ok body →
        (∀ x, env.customersCreate x = .ok cust) →
        (∀ x, env.invoicesCreate x = .error m) →
        (InvoiceCreate.POST env parse raw).1 = .serverError m ∧
          (InvoiceCreate.Res.serverError m).status = 500) ∧
    (∀ (env : QuotationPdf.Env) (q : QuotationPdf.PdfQuotation) (m : String),
        truthyOptStr q.quotationNumber = true →
        q.customer.isSome = true → q.items.isSome = true →
        env.render q = .error m →
        QuotationPdf.POST env q = (QuotationPdf.Res.serverError m, [.render]) ∧
          (QuotationPdf.Res.serverError m).status = 500) ∧
    (∀ (Raw : Type) (env : QuotationEmail.Env)
        (parse : Raw → Except (List String) QuotationEmail.Body) (raw : Raw)
        (body : QuotationEmail.Body) (m : String),
        parse raw = .ok body →
        truthyOptStr body.quotationId = true → body.quotation = none →
        env.getQuotation (body.quotationId.getD "") = .error m →
        (QuotationEmail.POST env parse raw).1 = .serverError m ∧
          (QuotationEmail.Res.serverError m).status = 500) ∧
    (∀ (Raw : Type) (env : QuotationEmail.Env)
        (parse : Raw → Except (List String) QuotationEmail.Body) (raw : Raw)
        (body : QuotationEmail.Body) (q : QuotationGet.StoredQuotation)
        (c : QuotationGet.StoredCustomer) (m : String),
        parse raw = .ok body → body.quotationId = none → body.quotation = some q →
        q.customer = some c → body.emailOptions = none →
        (∀ q' c' ds h, env.render q' c' ds h = .error m) →
        (QuotationEmail.POST env parse raw).1 = .serverError m ∧
          (QuotationEmail.Res.serverError m).status = 500) ∧
    (∀ (Raw : Type) (env : QuotationEmail.Env)
        (parse : Raw → Except (List String) QuotationEmail.Body) (raw : Raw)
        (body : QuotationEmail.Body) (q : QuotationGet.StoredQuotation)
        (c : QuotationGet.StoredCustomer) (buf : PdfBuf) (m : String),
        parse raw = .ok body → body.quotationId = none → body.quotation = some q →
        q.customer = some c → body.emailOptions = none →
        (∀ q' c' ds h, env.render q' c' ds h = .ok buf) →
        (∀ r s, env.sendEmail r s = .error m) →
        (QuotationEmail.POST env parse raw).1 = .serverError m ∧
          (QuotationEmail.Res.serverError m).status = 500) ∧
    (∀ (Raw : Type) (env : Datasheet.Env)
        (parse : Raw → Except (List String) Datasheet.Body) (raw : Raw)
        (body : Datasheet.Body) (p : Catalog.Product) (m : String),
        parse raw = .ok body → body.languages = none →
        (if truthyOptStr body.variantId then
          env.getProductWithVariant body.productId body.variantId
         else env.getProductById body.productId) = some p →
        (∀ l d ds h, env.render l d ds h = .error m) →
        (Datasheet.POST env parse raw).1 = .serverError m ∧
          (Datasheet.Res.serverError m).status = 500) ∧
    (∀ (Raw : Type) (env : Datasheet.Env)
        (parse : Raw → Except (List String) Datasheet.Body) (raw : Raw)
        (body : Datasheet.Body) (p : Catalog.Product)
        (c : QuotationGet.StoredCustomer) (buf : PdfBuf) (m : String),
        parse raw = .ok body → body.languages = none → body.returnPdf = false →
        body.customer = some c → ¬(c.email = "") →
        (if truthyOptStr body.variantId then
          env.getProductWithVariant body.productId body.variantId
         else env.getProductById body.productId) = some p →
        (∀ l d ds h, env.render l d ds h = .ok buf) →
        (∀ r s, env.sendEmail r s = .error m) →
        (Datasheet.POST env parse raw).1 = .serverError m ∧
          (Datasheet.Res.serverError m).status = 500) ∧
    (∀ (Raw : Type) (env : PhotoAddendum.Env)
        (parse : Raw → Except (List String) PhotoAddendum.Body) (raw : Raw)
        (body : PhotoAddendum.Body) (m : String),
        parse raw = .ok body →
        truthyOptStr body.quotationId = true → body.customer = none →
        env.getQuotation (body.quotationId.getD "") = .error m →
        (PhotoAddendum.POST env parse raw).1 = .serverError m ∧
          (PhotoAddendum.Res.serverError m).status = 500) ∧
    (∀ (Raw : Type) (env : PhotoAddendum.Env)
        (parse : Raw → Except (List String) PhotoAddendum.Body) (raw : Raw)
        (body : PhotoAddendum.Body) (c : QuotationGet.StoredCustomer)
        (prods : List PhotoAddendum.PAProduct) (bcalls : List PhotoAddendum.Call)
        (m : String),
        parse raw = .ok body → body.quotationId = none → body.customer = some c →
        ¬(c.email = "") →
        PhotoAddendum.buildProducts env body.includePhotos body.productIds =
          (prods, bcalls) →
        ¬(prods.length = 0) →
        (∀ d ds h, env.render d ds h = .error m) →
        (PhotoAddendum.POST env parse raw).1 = .serverError m ∧
          (PhotoAddendum.Res.serverError m).status = 500) ∧
    (∀ (Raw : Type) (env : PhotoAddendum.Env)
        (parse : Raw → Except (List String) PhotoAddendum.Body) (raw : Raw)
        (body : PhotoAddendum.Body) (c : QuotationGet.StoredCustomer)
        (prods : List PhotoAddendum.PAProduct) (bcalls : List PhotoAddendum.Call)
        (buf : PdfBuf) (m : String),
        parse raw = .ok body → body.quotationId = none → body.customer = some c →
        ¬(c.email = "") →
        PhotoAddendum.buildProducts env body.includePhotos body.productIds =
          (prods, bcalls) →
        ¬(prods.length = 0) →
        (∀ d ds h, env.render d ds h = .ok buf) →
        (∀ r s, env.sendEmail r s = .error m) →
        (PhotoAddendum.POST env parse raw).1 = .serverError m ∧
          (PhotoAddendum.Res.serverError m).status = 500) := by
  refine ⟨?_, ?_, ?_, ?_, ?_, ?_, ?_, ?_, ?_, ?_, ?_, ?_, ?_, ?_, ?_, ?_, ?_, ?_, ?_⟩
  · intro env secret signature timestamp body m hsig hts hmatch hparse
    refine ⟨?_, rfl⟩
    rw [webhookPOST_verified env secret signature timestamp body hsig hts hmatch]
    rw [hparse]
  · intro env secret signature timestamp body m ev hsig hts hmatch hparse htype hinv
    refine ⟨?_, rfl⟩
    rw [webhookPOST_verified env secret signature timestamp body hsig hts hmatch]
    rw [hparse]
    show (Webhook.processEvent env ev).1 = _
    rcases htype with h | h | h
    · simp [Webhook.processEvent, h, Webhook.handleInvoicePaid, hinv, Webhook.resOf]
    · simp [Webhook.processEvent, h, Webhook.handlePaymentFailed, hinv,
        Webhook.resOf]
    · simp [Webhook.processEvent, h, Webhook.handleInvoiceOverdue, hinv,
        Webhook.resOf]
  · intro env secret signature timestamp body m ev inv hsig hts hmatch hparse htype
      hinv hcust
    refine ⟨?_, rfl⟩
    rw [webhookPOST_verified env secret signature timestamp body hsig hts hmatch]
    rw [hparse]
    show (Webhook.processEvent env ev).1 = _
    rcases htype with h | h | h
    · simp [Webhook.processEvent, h, Webhook.handleInvoicePaid, hinv, hcust,
        Webhook.resOf]
    · simp [Webhook.processEvent, h, Webhook.handlePaymentFailed, hinv, hcust,
        Webhook.resOf]
    · simp [Webhook.processEvent, h, Webhook.handleInvoiceOverdue, hinv, hcust,
        Webhook.resOf]
  · intro env secret signature timestamp body m ev inv cust hsig hts hmatch hparse
      htype hinv hcust hsend
    refine ⟨?_, rfl⟩
    rw [webhookPOST_verified env secret signature timestamp body hsig hts hmatch]
    rw [hparse]
    show (Webhook.processEvent env ev).1 = _
    rcases htype with h | h | h
    · simp [Webhook.processEvent, h, Webhook.handleInvoicePaid, hinv, hcust, hsend,
        Webhook.resOf]
    · simp [Webhook.processEvent, h, Webhook.handlePaymentFailed, hinv, hcust,
        hsend, Webhook.resOf]
    · simp [Webhook.processEvent, h, Webhook.handleInvoiceOverdue, hinv, hcust,
        hsend, Webhook.resOf]
  · intro env invoiceId m ht hget
    refine ⟨?_, rfl⟩
    simp only [InvoiceStatus.GET]
    rw [if_neg (by simp [ht])]
    rw [hget]
  · intro env quotationId m ht hget
    refine ⟨?_, rfl⟩
    simp only [QuotationGet.GET]
    rw [if_neg (by simp [ht])]
    rw [hget]
  · intro Raw env parse raw body m hparse hbuild
    exact ⟨by simp [QuotationCreate.POST, hparse, hbuild], rfl⟩
  · intro Raw env parse raw body items m hparse hbuild hdb
    refine ⟨?_, rfl⟩
    simp only [QuotationCreate.POST, hparse, hbuild]
    simp [hdb]
  · intro Raw env parse raw body m hparse hcust
    refine ⟨?_, rfl⟩
    simp only [InvoiceCreate.POST, hparse]
    simp [hcust]
  · intro Raw env parse raw body cust m hparse hcust hinv
    refine ⟨?_, rfl⟩
    simp only [InvoiceCreate.POST, hparse]
    simp [hcust, hinv]
  · intro env q m h1 h2 h3 hrender
    obtain ⟨c, hc⟩ := Option.isSome_iff_exists.mp h2
    obtain ⟨its, hi⟩ := Option.isSome_iff_exists.mp h3
    refine ⟨?_, rfl⟩
    simp only [QuotationPdf.POST]
    rw [if_neg (by simp [h1, hc, hi])]
    rw [hrender]
  · intro Raw env parse raw body m hparse hqid hquot hget
    refine ⟨?_, rfl⟩
    simp only [QuotationEmail.POST, hparse]
    rw [if_pos (by simp [hqid, hquot])]
    rw [hget]
  · intro Raw env parse raw body q c m hparse hqid hquot hcust hopts hrender
    refine ⟨?_, rfl⟩
    simp only [QuotationEmail.POST, hparse]
    rw [if_neg (by simp [hqid, truthyOptStr])]
    simp only [QuotationEmail.afterFetch, hquot, hcust, hopts, if_pos, Option.bind,
      hrender q c body.documentStatus]
  · intro Raw env parse raw body q c buf m hparse hqid hquot hcust hopts hrender hsend
    refine ⟨?_, rfl⟩
    simp only [QuotationEmail.POST, hparse]
    rw [if_neg (by simp [hqid, truthyOptStr])]
    simp only [QuotationEmail.afterFetch, hquot, hcust, hopts, if_pos, Option.bind,
      hrender q c body.documentStatus, hsend c.email]
  · intro Raw env parse raw body p m hparse hlangs hprod hrender
    refine ⟨?_, rfl⟩
    simp only [Datasheet.POST, hparse]
    rw [hprod]
    rcases hfi : Datasheet.fetchImages env body.productId with ⟨pi, si, ic⟩
    dsimp only
    rw [hlangs]
    simp only [Datasheet.renderLangs, hrender]
  · intro Raw env parse raw body p c buf m hparse hlangs hret hcust hemail hprod
      hrender hsend
    refine ⟨?_, rfl⟩
    simp only [Datasheet.POST, hparse]
    rw [hprod]
    rcases hfi : Datasheet.fetchImages env body.productId with ⟨pi, si, ic⟩
    dsimp only
    rw [hlangs]
    simp only [Datasheet.renderLangs, hrender]
    rw [if_neg (by simp [hret])]
    rw [hcust]
    dsimp only
    rw [if_neg hemail]
    simp [hsend]
  · intro Raw env parse raw body m hparse hqid hcust hget
    refine ⟨?_, rfl⟩
    simp only [PhotoAddendum.POST, hparse]
    rw [if_pos (by simp [hqid, hcust])]
    rw [hget]
  · intro Raw env parse raw body c prods bcalls m hparse hqid hcust hemail hb hne
      hrender
    refine ⟨?_, rfl⟩
    simp only [PhotoAddendum.POST, hparse]
    rw [if_neg (by simp [hqid, truthyOptStr])]
    rw [hcust]
    dsimp only
    rw [if_neg hemail]
    simp only [PhotoAddendum.afterCustomer]
    rw [hb]
    dsimp only
    rw [if_neg hne]
    simp [hrender]
  · intro Raw env parse raw body c prods bcalls buf m hparse hqid hcust hemail hb
      hne hrender hsend
    refine ⟨?_, rfl⟩
    simp only [PhotoAddendum.POST, hparse]
    rw [if_neg (by simp [hqid, truthyOptStr])]
    rw [hcust]
    dsimp only
    rw [if_neg hemail]
    simp only [PhotoAddendum.afterCustomer]
    rw [hb]
    dsimp only
    rw [if_neg hne]
    simp [hrender, hsend]

/-- Claim C5 witness: a concrete failing run for every non-swallowed throw
site of every handler: webhook JSON parse, webhook invoice/customer/email
failures, invoice-status, quotation-get, quotation-create missing product
and database, invoice-create customer and invoice, quotation-pdf render,
quotation-email database/render/send, datasheet render/send, photo-addendum
database/render/send; each returns 500 with the thrown message. -/
theorem c5_witness :
    (Webhook.POST c1Env "whsec" (some hexZeros64) (some "123") "payload").1 =
        Webhook.Res.serverError "invalid json" ∧
      (Webhook.POST c5WebhookEnv "whsec" (some hexZeros64) (some "123")
          "payload").1 = Webhook.Res.serverError "mercury down" ∧
      (Webhook.POST c5WebhookEnvB "whsec" (some hexZeros64) (some "123")
          "payload").1 = Webhook.Res.serverError "customer lookup failed" ∧
      (Webhook.POST c5WebhookEnvC "whsec" (some hexZeros64) (some "123")
          "payload").1 = Webhook.Res.serverError "smtp down" ∧
      (InvoiceStatus.GET invoiceStatusEnvA (some "unknown")).1 =
        InvoiceStatus.Res.serverError "Invoice not found" ∧
      (QuotationGet.GET quotationGetEnvErr (some "q1")).1 =
        QuotationGet.Res.serverError "db down" ∧
      (QuotationCreate.POST quotationCreateEnvNone
          (fun _ : Unit => Except.ok sampleCreateBody) ()).1 =
        QuotationCreate.Res.serverError "Product not found: p1" ∧
      (QuotationCreate.POST quotationCreateEnvDbErr
          (fun _ : Unit => Except.ok sampleCreateBody) ()).1 =
        QuotationCreate.Res.serverError "db down" ∧
      (InvoiceCreate.POST invoiceCreateEnvA
          (fun _ : Unit => Except.ok sampleInvoiceBody) ()).1 =
        InvoiceCreate.Res.serverError "provider down" ∧
      (InvoiceCreate.POST invoiceCreateEnvB
          (fun _ : Unit => Except.ok sampleInvoiceBody) ()).1 =
        InvoiceCreate.Res.serverError "provider down" ∧
      QuotationPdf.POST quotationPdfEnvErr samplePdfQuotation =
        (QuotationPdf.Res.serverError "render failed", [.render]) ∧
      (QuotationEmail.POST quotationEmailEnvDbErr
          (fun _ : Unit => Except.ok sampleEmailBodyById) ()).1 =
        QuotationEmail.Res.serverError "db down" ∧
      (QuotationEmail.POST quotationEmailEnvRenderErr
          (fun _ : Unit => Except.ok sampleEmailBody) ()).1 =
        QuotationEmail.Res.serverError "render failed" ∧
      (QuotationEmail.POST quotationEmailEnvA
          (fun _ : Unit => Except.ok sampleEmailBody) ()).1 =
        QuotationEmail.Res.serverError "smtp down" ∧
      (Datasheet.POST datasheetEnvRenderErr
          (fun _ : Unit => Except.ok sampleDatasheetBody) ()).1 =
        Datasheet.Res.serverError "render failed" ∧
      (Datasheet.POST datasheetEnvSendErr
          (fun _ : Unit => Except.ok sampleDatasheetEmailBody) ()).1 =
        Datasheet.Res.serverError "smtp down" ∧
      (PhotoAddendum.POST photoAddendumEnvDbErr
          (fun _ : Unit => Except.ok samplePABodyById) ()).1 =
        PhotoAddendum.Res.serverError "db down" ∧
      (PhotoAddendum.POST photoAddendumEnvRenderErr
          (fun _ : Unit => Except.ok samplePABody) ()).1 =
        PhotoAddendum.Res.serverError "render failed" ∧
      (PhotoAddendum.POST photoAddendumEnvSendErr
          (fun _ : Unit => Except.ok samplePABody) ()).1 =
        PhotoAddendum.Res.serverError "smtp down" :=
  ⟨(c5_unhandled_exception_500_amended.1 c1Env "whsec" (some hexZeros64)
      (some "123") "payload" "invalid json" (by decide) (by decide) (by decide)
      rfl).1,
   (c5_unhandled_exception_500_amended.2.1 c5WebhookEnv "whsec" (some hexZeros64)
      (some "123") "payload" "mercury down" ⟨"invoice.paid", ⟨"inv1"⟩⟩
      (by decide) (by decide) (by decide) rfl (Or.inl rfl) (fun _ => rfl)).1,
   (c5_unhandled_exception_500_amended.2.2.1 c5WebhookEnvB "whsec"
      (some hexZeros64) (some "123") "payload" "customer lookup failed"
      ⟨"invoice.payment_failed", ⟨"inv1"⟩⟩ sampleWebhookInvoice
      (by decide) (by decide) (by decide) rfl (Or.inr (Or.inl rfl)) (fun _ => rfl)
      (fun _ => rfl)).1,
   (c5_unhandled_exception_500_amended.2.2.2.1 c5WebhookEnvC "whsec"
      (some hexZeros64) (some "123") "payload" "smtp down"
      ⟨"invoice.overdue", ⟨"inv1"⟩⟩ sampleWebhookInvoice sampleWebhookCustomer
      (by decide) (by decide) (by decide) rfl (Or.inr (Or.inr rfl)) (fun _ => rfl)
      (fun _ => rfl) (fun _ _ => rfl)).1,
   (c5_unhandled_exception_500_amended.2.2.2.2.1 invoiceStatusEnvA (some "unknown")
      "Invoice not found" (by decide) rfl).1,
   (c5_unhandled_exception_500_amended.2.2.2.2.2.1 quotationGetEnvErr (some "q1")
      "db down" (by decide) rfl).1,
   (c5_unhandled_exception_500_amended.2.2.2.2.2.2.1 Unit quotationCreateEnvNone _
      () sampleCreateBody "Product not found: p1" rfl rfl).1,
   (c5_unhandled_exception_500_amended.2.2.2.2.2.2.2.1 Unit quotationCreateEnvDbErr
      _ () sampleCreateBody _ "db down" rfl rfl rfl).1,
   (c5_unhandled_exception_500_amended.2.2.2.2.2.2.2.2.1 Unit invoiceCreateEnvA _
      () sampleInvoiceBody "provider down" rfl (fun _ => rfl)).1,
   (c5_unhandled_exception_500_amended.2.2.2.2.2.2.2.2.2.1 Unit invoiceCreateEnvB _
      () sampleInvoiceBody sampleWebhookCustomer "provider down" rfl (fun _ => rfl)
      (fun _ => rfl)).1,
   (c5_unhandled_exception_500_amended.2.2.2.2.2.2.2.2.2.2.1 quotationPdfEnvErr
      samplePdfQuotation "render failed" (by decide) rfl rfl rfl).1,
   (c5_unhandled_exception_500_amended.2.2.2.2.2.2.2.2.2.2.2.1 Unit
      quotationEmailEnvDbErr _ () sampleEmailBodyById "db down" rfl (by decide) rfl
      rfl).1,
   (c5_unhandled_exception_500_amended.2.2.2.2.2.2.2.2.2.2.2.2.1 Unit
      quotationEmailEnvRenderErr _ () sampleEmailBody sampleStoredQuotation
      sampleStoredCustomer "render failed" rfl rfl rfl rfl rfl
      (fun _ _ _ _ => rfl)).1,
   (c5_unhandled_exception_500_amended.2.2.2.2.2.2.2.2.2.2.2.2.2.1 Unit
      quotationEmailEnvA _ () sampleEmailBody sampleStoredQuotation
      sampleStoredCustomer [37] "smtp down" rfl rfl rfl rfl rfl
      (fun _ _ _ _ => rfl) (fun _ _ => rfl)).1,
   (c5_unhandled_exception_500_amended.2.2.2.2.2.2.2.2.2.2.2.2.2.2.1 Unit
      datasheetEnvRenderErr _ () sampleDatasheetBody sampleProduct "render failed"
      rfl rfl (by decide) (fun _ _ _ _ => rfl)).1,
   (c5_unhandled_exception_500_amended.2.2.2.2.2.2.2.2.2.2.2.2.2.2.2.1 Unit
      datasheetEnvSendErr _ () sampleDatasheetEmailBody sampleProduct
      sampleStoredCustomer [37] "smtp down" rfl rfl rfl rfl (by decide) (by decide)
      (fun _ _ _ _ => rfl) (fun _ _ => rfl)).1,
   (c5_unhandled_exception_500_amended.2.2.2.2.2.2.2.2.2.2.2.2.2.2.2.2.1 Unit
      photoAddendumEnvDbErr _ () samplePABodyById "db down" rfl (by decide) rfl
      rfl).1,
   (c5_unhandled_exception_500_amended.2.2.2.2.2.2.2.2.2.2.2.2.2.2.2.2.2.1 Unit
      photoAddendumEnvRenderErr _ () samplePABody sampleStoredCustomer _ _
      "render failed" rfl rfl rfl (by decide) rfl (by decide)
      (fun _ _ _ => rfl)).1,
   (c5_unhandled_exception_500_amended.2.2.2.2.2.2.2.2.2.2.2.2.2.2.2.2.2.2 Unit
      photoAddendumEnvSendErr _ () samplePABody sampleStoredCustomer _ _ [37]
      "smtp down" rfl rfl rfl (by decide) rfl (by decide) (fun _ _ _ => rfl)
      (fun _ _ => rfl)).1⟩

/-- Claim C6: the quotation-pdf endpoint, given a quotation with a truthy
quotation number and present customer and items and a successful render,
responds 200 with Content-Type application/pdf and an attachment filename
derived from the quotation number; the datasheet endpoint with
returnPdf=true for an existing product responds 200 with Content-Type
application/pdf and an attachment filename derived from the SKU. -/
theorem c6_pdf_responses :
    (∀ (env : QuotationPdf.Env) (q : QuotationPdf.PdfQuotation) (buf : PdfBuf),
        truthyOptStr q.quotationNumber = true →
        q.customer.isSome = true → q.items.isSome = true →
        env.render q = .ok buf →
        QuotationPdf.POST env q =
          (QuotationPdf.Res.pdf ("quotation-" ++ q.quotationNumber.getD "" ++ ".pdf") buf,
            [.render]) ∧
          (QuotationPdf.Res.pdf ("quotation-" ++ q.quotationNumber.getD "" ++ ".pdf")
            buf).status = 200 ∧
          (QuotationPdf.Res.pdf ("quotation-" ++ q.quotationNumber.getD "" ++ ".pdf")
            buf).contentType = "application/pdf" ∧
          (QuotationPdf.Res.pdf ("quotation-" ++ q.quotationNumber.getD "" ++ ".pdf")
            buf).contentDisposition =
            some ("attachment; filename=\"" ++
              ("quotation-" ++ q.quotationNumber.getD "" ++ ".pdf") ++ "\"")) ∧
    (∀ (Raw : Type) (env : Datasheet.Env)
        (parse : Raw → Except (List String) Datasheet.Body) (raw : Raw)
        (body : Datasheet.Body) (p : Catalog.Product) (buf : PdfBuf),
        parse raw = .ok body → body.returnPdf = true → body.languages = none →
        (if truthyOptStr body.variantId then
          env.getProductWithVariant body.productId body.variantId
         else env.getProductById body.productId) = some p →
        (∀ l d ds h, env.render l d ds h = .ok buf) →
        (Datasheet.POST env parse raw).1 =
          Datasheet.Res.pdf ("datasheet-" ++ Datasheet.skuOf p ++ ".pdf") buf ∧
          (Datasheet.Res.pdf ("datasheet-" ++ Datasheet.skuOf p ++ ".pdf") buf).status
            = 200 ∧
          (Datasheet.Res.pdf ("datasheet-" ++ Datasheet.skuOf p ++ ".pdf")
            buf).contentType = "application/pdf" ∧
          (Datasheet.Res.pdf ("datasheet-" ++ Datasheet.skuOf p ++ ".pdf")
            buf).contentDisposition =
            some ("attachment; filename=\"" ++
              ("datasheet-" ++ Datasheet.skuOf p ++ ".pdf") ++ "\"")) := by
  constructor
  · intro env q buf h1 h2 h3 hrender
    obtain ⟨c, hc⟩ := Option.isSome_iff_exists.mp h2
    obtain ⟨its, hi⟩ := Option.isSome_iff_exists.mp h3
    refine ⟨?_, rfl, rfl, rfl⟩
    simp only [QuotationPdf.POST]
    rw [if_neg (by simp [h1, hc, hi])]
    rw [hrender]
  · intro Raw env parse raw body p buf hparse hret hlangs hprod hrender
    refine ⟨?_, rfl, rfl, rfl⟩
    simp only [Datasheet.POST, hparse]
    rw [hprod]
    rcases hfi : Datasheet.fetchImages env body.productId with ⟨pi, si, ic⟩
    dsimp only
    rw [hlangs]
    simp only [Datasheet.renderLangs, hrender, hret]
    rw [if_pos trivial]
    rfl

/-- Claim C6 witness: a concrete quotation-pdf run and a concrete datasheet
returnPdf run, both producing the 200 PDF attachment response. -/
theorem c6_witness :
    QuotationPdf.POST quotationPdfEnvA samplePdfQuotation =
        (QuotationPdf.Res.pdf
          ("quotation-" ++ samplePdfQuotation.quotationNumber.getD "" ++ ".pdf") [42],
          [.render]) ∧
      (Datasheet.POST datasheetEnvA (fun _ : Unit => Except.ok sampleDatasheetBody)
          ()).1 =
        Datasheet.Res.pdf ("datasheet-" ++ Datasheet.skuOf sampleProduct ++ ".pdf")
          [37] :=
  ⟨(c6_pdf_responses.1 quotationPdfEnvA samplePdfQuotation [42] (by decide) rfl rfl
      rfl).1,
   (c6_pdf_responses.2 Unit datasheetEnvA _ () sampleDatasheetBody sampleProduct [37]
      rfl rfl rfl (by decide) (fun _ _ _ _ => rfl)).1⟩

theorem applyFilters_eq (q : Photos.Query) (l : List Catalog.ProductPhoto) :
    Photos.applyFilters q l = l.filter (Photos.photoMatchesQuery q) := by
  unfold Photos.applyFilters Photos.photoMatchesQuery
  by_cases hall : q.type = Photos.QueryType.all <;>
    by_cases ham : q.actualModelOnly = true
  · simp [hall, ham]
  · simp only [Bool.not_eq_true] at ham
    simp [hall, ham]
  · simp only [if_neg hall, if_pos ham]
    rw [List.filter_filter]
    refine List.filter_congr ?_
    intro p _
    simp [hall, ham, Bool.and_comm]
  · simp only [Bool.not_eq_true] at ham
    simp [hall, ham]

/-- Claim C7: for a product with a photo set, the photos endpoint returns
exactly the photos of the set that pass the query filters (type filter
unless `all`, actual-model filter when requested), in set order, each
augmented with a signed URL for its s3Key and the validated expiresIn value;
photoCount equals the number of returned photos (here: the photos list is
the filtered list mapped with the URL augmentation, and photoCount is its
length). -/
theorem c7_photos_filtered_and_signed :
    ∀ (Raw : Type) (env : Photos.Env)
      (parse : Raw → Except (List String) Photos.Query) (productId : String)
      (raw : Raw) (q : Photos.Query) (ps : Catalog.PhotoSet),
      parse raw = .ok q → env.getPhotosByProductId productId = some ps →
      Photos.GET env parse productId raw =
        (Photos.Res.success
          { productId := ps.productId
            productName := ps.productName
            sku := ps.sku
            refrigerant := ps.refrigerant
            photoCount := (ps.photos.filter (Photos.photoMatchesQuery q)).length
            photos := (ps.photos.filter (Photos.photoMatchesQuery q)).map (fun p =>
              { photo := p
                signedUrl := env.getPresignedUrl p.s3Key q.expiresIn
                expiresIn := q.expiresIn }) },
          (ps.photos.filter (Photos.photoMatchesQuery q)).map (fun p =>
            Photos.Call.getPresignedUrl p.s3Key q.expiresIn)) := by
  intro Raw env parse productId raw q ps hparse hps
  simp only [Photos.GET, hparse, hps]
  rw [applyFilters_eq]
  simp [List.length_map]

/-- Claim C7 witness: a concrete query for detail photos of the sample photo
set returns exactly the filtered, URL-augmented photos with matching count. -/
theorem c7_witness :
    Photos.GET photosEnvA (fun _ : Unit => Except.ok sampleQuery) "ds-acsc-400" () =
      (Photos.Res.success
        { productId := samplePhotoSet.productId
          productName := samplePhotoSet.productName
          sku := samplePhotoSet.sku
          refrigerant := samplePhotoSet.refrigerant
          photoCount :=
            (samplePhotoSet.photos.filter (Photos.photoMatchesQuery sampleQuery)).length
          photos :=
            (samplePhotoSet.photos.filter
              (Photos.photoMatchesQuery sampleQuery)).map (fun p =>
                { photo := p
                  signedUrl := photosEnvA.getPresignedUrl p.s3Key sampleQuery.expiresIn
                  expiresIn := sampleQuery.expiresIn }) },
        (samplePhotoSet.photos.filter (Photos.photoMatchesQuery sampleQuery)).map
          (fun p => Photos.Call.getPresignedUrl p.s3Key sampleQuery.expiresIn)) :=
  c7_photos_filtered_and_signed Unit photosEnvA _ "ds-acsc-400" () sampleQuery
    samplePhotoSet rfl (by decide)

theorem jsOrQ_getD_zero (o : Option ℚ) : jsOrQ o 0 = o.getD 0 := by
  cases o with
  | none => rfl
  | some v =>
    by_cases hv : v = 0 <;> simp [jsOrQ, hv]

/-- Claim C8: every successful invoice-status response reports
amountPaid = paidAmount (or 0 when absent) and amountDue = total -
amountPaid, so amountPaid + amountDue equals the invoice total exactly
(amounts are modelled as exact rationals). -/
theorem c8_invoice_amounts (env : InvoiceStatus.Env) (invoiceId : Option String)
    (inv : InvoiceStatus.Invoice)
    (ht : truthyOptStr invoiceId = true)
    (hget : env.invoicesGet (invoiceId.getD "") = .ok inv) :
    ∃ pl : InvoiceStatus.Payload,
      (InvoiceStatus.GET env invoiceId).1 = .success pl ∧
        pl.amountPaid = inv.paidAmount.getD 0 ∧
        pl.amountPaid + pl.amountDue = inv.total ∧
        pl.amountDue = inv.total - pl.amountPaid := by
  refine ⟨{ id := inv.id
            invoiceNumber := inv.number
            status := inv.status
            total := inv.total
            amountPaid := jsOrQ inv.paidAmount 0
            amountDue := inv.total - jsOrQ inv.paidAmount 0
            dueDate := inv.dueDate
            paidDate := inv.paidAt
            paymentUrl := inv.paymentUrl
            customerId := inv.customerId }, ?_, ?_, ?_, ?_⟩
  · simp only [InvoiceStatus.GET]
    rw [if_neg (by simp [ht]), hget]
  · exact jsOrQ_getD_zero inv.paidAmount
  · ring
  · rfl

/-- Claim C8 witness: a concrete invoice with total 100 and paidAmount 40
yields amountPaid 40 and amountDue 60, summing to the total. -/
theorem c8_witness :
    ∃ pl : InvoiceStatus.Payload,
      (InvoiceStatus.GET invoiceStatusEnvA (some "inv1")).1 = .success pl ∧
        pl.amountPaid = sampleInvoice.paidAmount.getD 0 ∧
        pl.amountPaid + pl.amountDue = sampleInvoice.total ∧
        pl.amountDue = sampleInvoice.total - pl.amountPaid :=
  c8_invoice_amounts invoiceStatusEnvA (some "inv1") sampleInvoice (by decide) rfl

theorem buildQuotationItems_spec (env : QuotationCreate.Env)
    (cur : QuotationCreate.Currency) :
    ∀ (items : List QuotationCreate.ItemReq) (idx : Nat),
      (∀ it ∈ items, (env.getProductById it.productId).isSome = true) →
      ∃ out, QuotationCreate.buildQuotationItems env cur items idx = .ok out ∧
        out.length = items.length ∧
        (∀ (j : Nat) (it : QuotationCreate.ItemReq) (p : Catalog.Product),
          items.get? j = some it → env.getProductById it.productId = some p →
          out.get? j = some
            { id := it.productId ++ "-" ++ toString (idx + j)
              name := p.name
              description := p.shortDescription
              quantity := it.quantity
              unitPrice := it.customPrice.getD
                (jsOrQ (env.getProductPrice (jsOrStr it.variantId it.productId) cur)
                  p.basePrice)
              totalPrice := it.customPrice.getD
                (jsOrQ (env.getProductPrice (jsOrStr it.variantId it.productId) cur)
                  p.basePrice) * it.quantity
              specifications := p.specifications
              images := p.images }) := by
  intro items
  induction items with
  | nil =>
    intro idx _
    exact ⟨[], rfl, rfl, fun j it p hj _ => by simp at hj⟩
  | cons it rest ih =>
    intro idx h
    have hit : (env.getProductById it.productId).isSome = true := h it (by simp)
    obtain ⟨p, hp⟩ := Option.isSome_iff_exists.mp hit
    obtain ⟨tail, htail, hlen, hpt⟩ := ih (idx + 1) (fun x hx => h x (by simp [hx]))
    refine ⟨{ id := it.productId ++ "-" ++ toString idx
              name := p.name
              description := p.shortDescription
              quantity := it.quantity
              unitPrice := it.customPrice.getD
                (jsOrQ (env.getProductPrice (jsOrStr it.variantId it.productId) cur)
                  p.basePrice)
              totalPrice := it.customPrice.getD
                (jsOrQ (env.getProductPrice (jsOrStr it.variantId it.productId) cur)
                  p.basePrice) * it.quantity
              specifications := p.specifications
              images := p.images } :: tail, ?_, by simp [hlen], ?_⟩
    · simp only [QuotationCreate.buildQuotationItems, hp, htail]
    · intro j it' p' hj hp'
      cases j with
      | zero =>
        rw [List.get?_cons_zero] at hj
        injection hj with hj
        subst hj
        rw [hp] at hp'
        injection hp' with hp'
        subst hp'
        rw [List.get?_cons_zero]
        rfl
      | succ j =>
        rw [List.get?_cons_succ] at hj
        rw [List.get?_cons_succ]
        have h2 := hpt j it' p' hj hp'
        rw [h2]
        rw [show idx + 1 + j = idx + (j + 1) from by omega]

/-- Claim C9 (amended): for every valid quotation-create request whose
products all exist, the quotation handed to the database proxy contains one
item per requested item in request order; each item's unitPrice is the
request's customPrice when provided, otherwise the catalog price of
`variantId || productId` (the variant id falls through when absent OR empty)
when that price exists AND IS NONZERO, falling back to the product's
basePrice otherwise (JavaScript `||`); each item's totalPrice is unitPrice
times the requested quantity.  (The original claim used the catalog price
whenever it exists; a zero catalog price also falls back to basePrice.) -/
theorem c9_quotation_items_amended :
    ∀ (Raw : Type) (env : QuotationCreate.Env)
      (parse : Raw → Except (List String) QuotationCreate.CreateBody) (raw : Raw)
      (body : QuotationCreate.CreateBody),
      parse raw = .ok body →
      (∀ it ∈ body.items, (env.getProductById it.productId).isSome = true) →
      ∃ (items : List QuotationCreate.QuotationItem),
        QuotationCreate.buildQuotationItems env body.currency body.items 0 =
          .ok items ∧
        (QuotationCreate.POST env parse raw).2 =
          [QuotationCreate.Call.dbCreateQuotation
            (QuotationCreate.mkStored env body items)] ∧
        (QuotationCreate.mkStored env body items).items = items ∧
        items.length = body.items.length ∧
        (∀ (j : Nat) (it : QuotationCreate.ItemReq) (p : Catalog.Product),
          body.items.get? j = some it → env.getProductById it.productId = some p →
          items.get? j = some
            { id := it.productId ++ "-" ++ toString j
              name := p.name
              description := p.shortDescription
              quantity := it.quantity
              unitPrice := it.customPrice.getD
                (jsOrQ (env.getProductPrice (jsOrStr it.variantId it.productId)
                  body.currency) p.basePrice)
              totalPrice := it.customPrice.getD
                (jsOrQ (env.getProductPrice (jsOrStr it.variantId it.productId)
                  body.currency) p.basePrice) * it.quantity
              specifications := p.specifications
              images := p.images }) := by
  intro Raw env parse raw body hparse hprod
  obtain ⟨items, hbuild, hlen, hpt⟩ :=
    buildQuotationItems_spec env body.currency body.items 0 hprod
  refine ⟨items, hbuild, ?_, rfl, hlen, ?_⟩
  · simp only [QuotationCreate.POST, hparse, hbuild]
    cases hdb : env.dbCreateQuotation (QuotationCreate.mkStored env body items) <;>
      simp [hdb]
  · intro j it p hj hp
    simpa using hpt j it p hj hp

/-- Claim C9 counterexample: with a catalog price of zero (which exists) and
a basePrice of 100, the created item's unitPrice is 100 (the code's
JavaScript `||` falls back to basePrice on the falsy zero), while the claim
as stated predicts the existing catalog price 0. -/
theorem c9_counterexample :
    ((QuotationCreate.POST quotationCreateEnvPriceZero
        (fun _ : Unit => Except.ok sampleCreateBody) ()).2.map
      (fun c => match c with
        | QuotationCreate.Call.dbCreateQuotation s =>
          s.items.map (fun i => i.unitPrice))) = [[100]] ∧
      sampleCreateBody.items.map (fun it =>
        it.customPrice.getD
          ((quotationCreateEnvPriceZero.getProductPrice
              (match it.variantId with
               | some v => v
               | none => it.productId)
              sampleCreateBody.currency).getD sampleProduct.basePrice)) = [0] ∧
      (100 : ℚ) ≠ 0 := by
  refine ⟨by decide, by decide, by norm_num⟩

/-- Claim C9 witness: a concrete valid request for two units of the sample
product (catalog price 50) produces one stored item with unitPrice 50 and
totalPrice 100. -/
theorem c9_witness :
    ∃ (items : List QuotationCreate.QuotationItem),
      QuotationCreate.buildQuotationItems quotationCreateEnvA
          sampleCreateBody.currency sampleCreateBody.items 0 = .ok items ∧
        (QuotationCreate.POST quotationCreateEnvA
            (fun _ : Unit => Except.ok sampleCreateBody) ()).2 =
          [QuotationCreate.Call.dbCreateQuotation
            (QuotationCreate.mkStored quotationCreateEnvA sampleCreateBody items)] ∧
        (QuotationCreate.mkStored quotationCreateEnvA sampleCreateBody items).items =
          items ∧
        items.length = sampleCreateBody.items.length ∧
        (∀ (j : Nat) (it : QuotationCreate.ItemReq) (p : Catalog.Product),
          sampleCreateBody.items.get? j = some it →
          quotationCreateEnvA.getProductById it.productId = some p →
          items.get? j = some
            { id := it.productId ++ "-" ++ toString j
              name := p.name
              description := p.shortDescription
              quantity := it.quantity
              unitPrice := it.customPrice.getD
                (jsOrQ (quotationCreateEnvA.getProductPrice
                  (jsOrStr it.variantId it.productId) sampleCreateBody.currency)
                  p.basePrice)
              totalPrice := it.customPrice.getD
                (jsOrQ (quotationCreateEnvA.getProductPrice
                  (jsOrStr it.variantId it.productId) sampleCreateBody.currency)
                  p.basePrice) * it.quantity
              specifications := p.specifications
              images := p.images }) :=
  c9_quotation_items_amended Unit quotationCreateEnvA _ () sampleCreateBody rfl
    (by decide)

/-- Claim C10 witness: a concrete run with a verified signature and event type
`customer.created` that returns the bare acknowledgement. -/
theorem c10_witness :
    Webhook.POST c10Env "whsec" (some hexZeros64) (some "123") "payload" =
      (Webhook.Res.received, []) ∧ Webhook.Res.received.status = 200 :=
  c10_unhandled_event_acknowledged c10Env "whsec" (some hexZeros64) (some "123")
    "payload" ⟨"customer.created", ⟨"inv1"⟩⟩ (by decide) (by decide) (by decide)
    rfl (by decide) (by decide) (by decide)

end DesertSolutions
